import Mathlib

/-!
Shallow embedding of the merval Mermaid validator (lexer in `src/lexer/index.ts`,
parser in `src/parser/index.ts`, public entry `validateMermaid` in `src/index.ts`),
together with theorems settling the specification claims.

Loops of the source that do not obviously make progress are modelled with an
explicit fuel parameter; `none` means the fuel ran out (which, for a loop whose
state has reached a fixed point, holds for every fuel and witnesses divergence
of the original code).
-/

namespace Merval

/-- Token kinds of the lexer (`TokenType` enum in `src/lexer/index.ts`). -/
inductive TokenType where
  | GRAPH | FLOWCHART | SEQUENCE_DIAGRAM | CLASS_DIAGRAM | STATE_DIAGRAM
  | STATE_DIAGRAM_V2 | ER_DIAGRAM | JOURNEY | GANTT | PIE | GITGRAPH | MINDMAP
  | TIMELINE | XYCHART_BETA | BLOCK_BETA
  | ARROW | DOTTED_ARROW | THICK_ARROW | SUBGRAPH | SUBGRAPH_END
  | PARTICIPANT | ACTIVATION | DEACTIVATION | NOTE | SEQUENCE_ARROW
  | IDENTIFIER | STRING | NUMBER
  | BRACKET_OPEN | BRACKET_CLOSE | PAREN_OPEN | PAREN_CLOSE
  | DOUBLE_PAREN_OPEN | DOUBLE_PAREN_CLOSE | BRACE_OPEN | BRACE_CLOSE
  | COMMA | SEMICOLON | COLON | PIPE | EQUALS | NEWLINE | WHITESPACE
  | COMMENT | DIRECTIVE | EOF
  deriving DecidableEq, Repr

/-- A lexer token (`Token` interface): kind, raw text, 1-based line/column and
0-based character offset. -/
structure Token where
  type : TokenType
  value : String
  line : Nat
  column : Nat
  position : Nat
  deriving DecidableEq, Repr

/-- The character class of the JavaScript regex `\s` (whitespace). -/
def jsSpace (c : Char) : Bool :=
  c = ' ' || c = '\t' || c = '\n' || c = '\r' ||
  c = Char.ofNat 11 || c = Char.ofNat 12 || c = Char.ofNat 0xa0 ||
  c = Char.ofNat 0x1680 || (0x2000 ≤ c.toNat && c.toNat ≤ 0x200a) ||
  c = Char.ofNat 0x2028 || c = Char.ofNat 0x2029 || c = Char.ofNat 0x202f ||
  c = Char.ofNat 0x205f || c = Char.ofNat 0x3000 || c = Char.ofNat 0xfeff

/-- The character class of `\d` (ASCII digits). -/
def isDigitCh (c : Char) : Bool := 48 ≤ c.toNat && c.toNat ≤ 57

/-- ASCII letters (`[a-zA-Z]`). -/
def isAlphaCh (c : Char) : Bool :=
  (65 ≤ c.toNat && c.toNat ≤ 90) || (97 ≤ c.toNat && c.toNat ≤ 122)

/-- Identifier start characters (`[a-zA-Z_]`). -/
def isIdentStart (c : Char) : Bool := isAlphaCh c || c = '_'

/-- Identifier continuation characters (`[a-zA-Z0-9_'-]`, the apostrophe is
code point 39). -/
def isIdentChar (c : Char) : Bool :=
  isAlphaCh c || isDigitCh c || c = '_' || c.toNat = 39 || c = '-'

/-- ASCII `toLowerCase` on one character. -/
def lowerChar (c : Char) : Char :=
  if 65 ≤ c.toNat ∧ c.toNat ≤ 90 then Char.ofNat (c.toNat + 32) else c

/-- JavaScript `toLowerCase()` (ASCII range, which is all the keyword table
needs). -/
def lowerStr (s : String) : String := String.mk (s.data.map lowerChar)

/-- Lexer state: remaining characters plus absolute offset, line and column
(the source keeps an index into the full input; the remaining-characters view
is equivalent). -/
structure LexState where
  rest : List Char
  pos : Nat
  line : Nat
  column : Nat
  deriving Repr

/-- The case-insensitive keyword table of `readIdentifier` (applied to the
lowercased identifier text). `note`, `classdef`, `class`, `linkstyle` and
`style` are deliberately kept as identifiers, and `end` is absent. -/
def keywordType (lower : String) : TokenType :=
  if lower = "graph" then .GRAPH
  else if lower = "flowchart" then .FLOWCHART
  else if lower = "sequencediagram" then .SEQUENCE_DIAGRAM
  else if lower = "classdiagram" then .CLASS_DIAGRAM
  else if lower = "statediagram" then .STATE_DIAGRAM
  else if lower = "statediagram-v2" then .STATE_DIAGRAM_V2
  else if lower = "erdiagram" then .ER_DIAGRAM
  else if lower = "journey" then .JOURNEY
  else if lower = "gantt" then .GANTT
  else if lower = "pie" then .PIE
  else if lower = "gitgraph" then .GITGRAPH
  else if lower = "mindmap" then .MINDMAP
  else if lower = "timeline" then .TIMELINE
  else if lower = "xychart-beta" then .XYCHART_BETA
  else if lower = "block-beta" then .BLOCK_BETA
  else if lower = "participant" then .PARTICIPANT
  else if lower = "activate" then .ACTIVATION
  else if lower = "deactivate" then .DEACTIVATION
  else if lower = "note" then .IDENTIFIER
  else if lower = "subgraph" then .SUBGRAPH
  else if lower = "classdef" then .IDENTIFIER
  else if lower = "class" then .IDENTIFIER
  else if lower = "linkstyle" then .IDENTIFIER
  else if lower = "style" then .IDENTIFIER
  else .IDENTIFIER

/-- The identifier scan of `readIdentifier`: greedily take identifier
characters, but stop at a hyphen that starts `->` or `-->`. -/
def identTake : List Char → List Char
  | [] => []
  | c :: rest =>
    if isIdentChar c then
      if c = '-' && (match rest with | '>' :: _ => true | _ => false) then []
      else if c = '-' && (match rest with | '-' :: '>' :: _ => true | _ => false) then []
      else c :: identTake rest
    else []

/-- Characters of the current line (used by `readComment`): everything up to
but excluding the next newline. -/
def lineTake : List Char → List Char
  | [] => []
  | c :: rest => if c = '\n' then [] else c :: lineTake rest

/-- The body scan of `readString`: consume characters until the closing quote
(exclusive), tracking offset, line and column exactly as the source does.
Returns (body, remaining, pos, line, column). -/
def strLoop (quote : Char) : List Char → Nat → Nat → Nat → (List Char × List Char × Nat × Nat × Nat)
  | [], pos, line, col => ([], [], pos, line, col)
  | c :: rest, pos, line, col =>
    if c = quote then ([], c :: rest, pos, line, col)
    else if c = '\n' then
      let (b, r, p, l, cc) := strLoop quote rest (pos + 1) (line + 1) 1
      (c :: b, r, p, l, cc)
    else
      let (b, r, p, l, cc) := strLoop quote rest (pos + 1) line (col + 1)
      (c :: b, r, p, l, cc)

/-- The brace-depth-aware scan of `readDirective` (after the opening `%%{`,
with `braceCount` starting at 1). On `\x7b`/`\x7d` the column is not advanced,
mirroring the source. Returns (consumed, remaining, line, column). -/
def dirTake : List Char → Nat → Nat → Nat → (List Char × List Char × Nat × Nat)
  | [], _, line, col => ([], [], line, col)
  | c :: rest, bc, line, col =>
    if bc = 0 then ([], c :: rest, line, col)
    else
      let bc2 := if c = Char.ofNat 123 then bc + 1 else if c = Char.ofNat 125 then bc - 1 else bc
      let lc :=
        if c = '\n' then (line + 1, 1)
        else if c = Char.ofNat 123 || c = Char.ofNat 125 then (line, col)
        else (line, col + 1)
      let (a, r, l, cc) := dirTake rest bc2 lc.1 lc.2
      (c :: a, r, l, cc)

/-- `readComment`: `%%` up to and including the newline (if present). The token
keeps the start line/column. -/
def readComment (chars : List Char) (pos line col : Nat) : Option Token × LexState :=
  let body := lineTake (chars.drop 2)
  let n := body.length
  let after := chars.drop (2 + n)
  match after with
  | '\n' :: r =>
    (some ⟨.COMMENT, String.mk (chars.take (2 + n) ++ ['\n']), line, col, pos⟩,
     ⟨r, pos + 2 + n + 1, line + 1, 1⟩)
  | _ =>
    (some ⟨.COMMENT, String.mk (chars.take (2 + n)), line, col, pos⟩,
     ⟨after, pos + 2 + n, line, col + 2 + n⟩)

/-- `readDirective`: `%%{ ... }` through the matching close, then the closing
`%%` when present. The token records the line/column reached after scanning. -/
def readDirective (chars : List Char) (pos line col : Nat) : Option Token × LexState :=
  let (body, rem, l1, c1) := dirTake (chars.drop 3) 1 line (col + 3)
  match rem with
  | '%' :: '%' :: r2 =>
    (some ⟨.DIRECTIVE, String.mk (chars.take 3 ++ body ++ ['%', '%']), l1, c1 + 2, pos⟩,
     ⟨r2, pos + 3 + body.length + 2, l1, c1 + 2⟩)
  | _ =>
    (some ⟨.DIRECTIVE, String.mk (chars.take 3 ++ body), l1, c1, pos⟩,
     ⟨rem, pos + 3 + body.length, l1, c1⟩)

/-- `readString`: from the opening quote to the matching quote (spanning lines);
the token records the line/column reached after scanning and the start offset. -/
def readString (quote : Char) (afterQuote : List Char) (pos line col : Nat) : Option Token × LexState :=
  let (body, rem, p1, l1, c1) := strLoop quote afterQuote (pos + 1) line (col + 1)
  match rem with
  | _ :: rem2 =>
    (some ⟨.STRING, String.mk (quote :: body ++ [quote]), l1, c1 + 1, pos⟩,
     ⟨rem2, p1 + 1, l1, c1 + 1⟩)
  | [] =>
    (some ⟨.STRING, String.mk (quote :: body), l1, c1, pos⟩, ⟨[], p1, l1, c1⟩)

/-- `readNumber`: a maximal run of digits; the token records the column reached
after the run (as the source does). -/
def readNumber (chars : List Char) (pos line col : Nat) : Option Token × LexState :=
  let taken := chars.takeWhile isDigitCh
  let n := taken.length
  (some ⟨.NUMBER, String.mk taken, line, col + n, pos⟩,
   ⟨chars.drop n, pos + n, line, col + n⟩)

/-- `readIdentifier`: maximal identifier run with arrow lookahead, then the
case-insensitive keyword table. The token keeps the original casing and records
the column reached after the run. -/
def readIdentifier (chars : List Char) (pos line col : Nat) : Option Token × LexState :=
  let taken := identTake chars
  let n := taken.length
  let value := String.mk taken
  (some ⟨keywordType (lowerStr value), value, line, col + n, pos⟩,
   ⟨chars.drop n, pos + n, line, col + n⟩)

/-- The `=` block of `nextToken` (the characters after the leading `=`): a
thick arrow `==>` unless the 4-character form `==>>` follows, which is
deliberately not one token and degrades to a bare equals for the first
character; otherwise a bare equals. -/
def readEqualsBlock (rest : List Char) (pos line col : Nat) : Option Token × LexState :=
  match rest with
  | '=' :: '>' :: '>' :: _ =>
    (some ⟨.EQUALS, "=", line, col, pos⟩, ⟨rest, pos + 1, line, col + 1⟩)
  | '=' :: '>' :: rest3 =>
    (some ⟨.THICK_ARROW, "==>", line, col + 1, pos⟩, ⟨rest3, pos + 3, line, col + 3⟩)
  | _ =>
    (some ⟨.EQUALS, "=", line, col, pos⟩, ⟨rest, pos + 1, line, col + 1⟩)

/-- The `-` block of `nextToken` (the characters after the leading `-`):
dotted arrows before plain arrows before bare sequence arrows, longest match
first; a `-` starting no arrow falls through to the unknown-character case
(a single-character identifier). -/
def readMinusBlock (rest : List Char) (pos line col : Nat) : Option Token × LexState :=
  match rest with
  | '.' :: '-' :: '>' :: '>' :: rest5 =>
    (some ⟨.DOTTED_ARROW, "-.->>", line, col + 1, pos⟩, ⟨rest5, pos + 5, line, col + 5⟩)
  | '.' :: '-' :: '>' :: rest4 =>
    (some ⟨.DOTTED_ARROW, "-.->", line, col + 1, pos⟩, ⟨rest4, pos + 4, line, col + 4⟩)
  | '-' :: '>' :: '>' :: rest4 =>
    (some ⟨.ARROW, "-->>", line, col + 1, pos⟩, ⟨rest4, pos + 4, line, col + 4⟩)
  | '-' :: '>' :: rest3 =>
    (some ⟨.ARROW, "-->", line, col + 1, pos⟩, ⟨rest3, pos + 3, line, col + 3⟩)
  | '>' :: '>' :: rest3 =>
    (some ⟨.SEQUENCE_ARROW, "->>", line, col + 1, pos⟩, ⟨rest3, pos + 3, line, col + 3⟩)
  | '>' :: rest2 =>
    (some ⟨.SEQUENCE_ARROW, "->", line, col + 1, pos⟩, ⟨rest2, pos + 2, line, col + 2⟩)
  | _ =>
    (some ⟨.IDENTIFIER, "-", line, col, pos⟩, ⟨rest, pos + 1, line, col + 1⟩)

/-- `nextToken` of the lexer, on an explicit (rest, pos, line, column) state.
Returns `none` exactly when the input is exhausted. -/
def nextTokenAux : List Char → Nat → Nat → Nat → Option Token × LexState
  | [], pos, line, col => (none, ⟨[], pos, line, col⟩)
  | c :: rest, pos, line, col =>
    if jsSpace c then
      if c = '\n' then nextTokenAux rest (pos + 1) (line + 1) 1
      else nextTokenAux rest (pos + 1) line (col + 1)
    else if c = '%' && (match rest with | '%' :: _ => true | _ => false) then
      if (match rest with | _ :: ch :: _ => ch == Char.ofNat 123 | _ => false) then
        readDirective (c :: rest) pos line col
      else readComment (c :: rest) pos line col
    else if c = '(' && (match rest with | '(' :: _ => true | _ => false) then
      (some ⟨.DOUBLE_PAREN_OPEN, "((", line, col, pos⟩, ⟨rest.drop 1, pos + 2, line, col + 2⟩)
    else if c = ')' && (match rest with | ')' :: _ => true | _ => false) then
      (some ⟨.DOUBLE_PAREN_CLOSE, "))", line, col, pos⟩, ⟨rest.drop 1, pos + 2, line, col + 2⟩)
    else if c = '=' then readEqualsBlock rest pos line col
    else if c = '[' then (some ⟨.BRACKET_OPEN, "[", line, col, pos⟩, ⟨rest, pos + 1, line, col + 1⟩)
    else if c = ']' then (some ⟨.BRACKET_CLOSE, "]", line, col, pos⟩, ⟨rest, pos + 1, line, col + 1⟩)
    else if c = '(' then (some ⟨.PAREN_OPEN, "(", line, col, pos⟩, ⟨rest, pos + 1, line, col + 1⟩)
    else if c = ')' then (some ⟨.PAREN_CLOSE, ")", line, col, pos⟩, ⟨rest, pos + 1, line, col + 1⟩)
    else if c = ',' then (some ⟨.COMMA, ",", line, col, pos⟩, ⟨rest, pos + 1, line, col + 1⟩)
    else if c = ';' then (some ⟨.SEMICOLON, ";", line, col, pos⟩, ⟨rest, pos + 1, line, col + 1⟩)
    else if c = ':' then (some ⟨.COLON, ":", line, col, pos⟩, ⟨rest, pos + 1, line, col + 1⟩)
    else if c = '|' then (some ⟨.PIPE, "|", line, col, pos⟩, ⟨rest, pos + 1, line, col + 1⟩)
    else if c = '-' then readMinusBlock rest pos line col
    else if c = '"' || c.toNat = 39 then readString c rest pos line col
    else if isDigitCh c then readNumber (c :: rest) pos line col
    else if isIdentStart c then readIdentifier (c :: rest) pos line col
    else
      (some ⟨.IDENTIFIER, String.mk [c], line, col, pos⟩, ⟨rest, pos + 1, line, col + 1⟩)

/-- `nextToken` on a `LexState`. -/
def nextToken (st : LexState) : Option Token × LexState :=
  nextTokenAux st.rest st.pos st.line st.column

/-- The always-appended end-of-input token, built from the final lexer state. -/
def eofToken (st : LexState) : Token := ⟨.EOF, "", st.line, st.column, st.pos⟩

/-- The `tokenize` loop: collect tokens until `nextToken` is exhausted, then
append one `EOF` token. Each produced token consumes at least one character,
so the initial fuel `input.length + 1` never runs out. -/
def tokenizeLoop : Nat → LexState → List Token
  | 0, st => [eofToken st]
  | fuel + 1, st =>
    match nextToken st with
    | (none, st2) => [eofToken st2]
    | (some t, st2) =>
      if t.type = .EOF then [eofToken st2] else t :: tokenizeLoop fuel st2

/-- `Lexer.tokenize`: the full token list of an input string, always ending in
exactly one `EOF` token. -/
def tokenize (input : String) : List Token :=
  tokenizeLoop (input.data.length + 1) ⟨input.data, 0, 1, 1⟩

/-- A diagnostic record (`ValidationError` in `src/ast/index.ts`). -/
structure ValidationError where
  line : Nat
  column : Nat
  message : String
  code : String
  suggestion : Option String
  deriving DecidableEq, Repr

/-- Flowchart node shapes. -/
inductive Shape where
  | rect | round | diamond | circle
  deriving DecidableEq, Repr

/-- Sequence-message arrow types (`arrowType` of `MessageNode`). -/
inductive SeqArrowType where
  | solid | dotted | thick
  deriving DecidableEq, Repr

/-- One item of a flowchart's flat element list (`FlowchartElement`): a node,
an arrow (destination only, no source), a subgraph with children, or the
internal `processed` marker the parser uses for consumed meta-statements. -/
inductive FlowchartElement where
  | node (line column : Nat) (id : String) (label : Option String) (shape : Shape)
  | arrow (line column : Nat) (label : Option String) (dest : Option String)
  | subgraphElement (line column : Nat) (id : String) (children : List FlowchartElement)
  | processed (line column : Nat)

/-- A sequence-diagram participant declaration. -/
structure ParticipantNode where
  line : Nat
  column : Nat
  name : String
  alias_ : Option String
  deriving DecidableEq, Repr

/-- A sequence-diagram message (`MessageNode`): source/target participants,
free-form text and the arrow type. -/
structure MessageNode where
  line : Nat
  column : Nat
  source : String
  target : String
  message : String
  arrowType : SeqArrowType
  deriving DecidableEq, Repr

/-- The y-axis descriptor of an xychart. -/
structure YAxisData where
  label : String
  min : Nat
  max : Nat
  deriving DecidableEq, Repr

/-- One data series of an xychart (`type` is the keyword text `bar`/`line`). -/
structure SeriesData where
  type : String
  values : List Nat
  deriving DecidableEq, Repr

/-- One block of a block-beta diagram. -/
structure BlockElement where
  line : Nat
  column : Nat
  id : String
  label : String
  deriving DecidableEq, Repr

/-- The AST root returned by the parser; diagram types with unmodelled internal
structure (class, state, pie, journey, gantt, er, gitgraph, mindmap, timeline,
unknown) are the `plain` constructor carrying only their type tag. -/
inductive Ast where
  | flowchart (line column : Nat) (direction : Option String) (nodes : List FlowchartElement)
  | sequence (line column : Nat) (participants : List ParticipantNode) (messages : List MessageNode)
  | xychart (line column : Nat) (title : Option String) (xAxis : List String)
      (yAxis : YAxisData) (data : List SeriesData)
  | block (line column : Nat) (columns : Option Nat) (blocks : List BlockElement)
  | plain (kind : String) (line column : Nat)

/-- The result of one validation call (`ValidationResult`). -/
structure ValidationResult where
  isValid : Bool
  diagramType : String
  errors : List ValidationError
  ast : Option Ast

/-- Parser state: the fixed token list plus cursor position, accumulated
diagnostics and the per-flowchart link counter. -/
structure PState where
  tokens : List Token
  pos : Nat
  errors : List ValidationError
  linkCount : Nat
  deriving Repr

/-- Fallback token for the (unreachable) empty-token-list case. -/
def defaultToken : Token := ⟨.EOF, "", 1, 1, 0⟩

/-- `Parser.currentToken`: the token at the cursor, saturating to the final
(EOF) token past the end. -/
def currentToken (s : PState) : Token :=
  if s.tokens.length ≤ s.pos then s.tokens.getD (s.tokens.length - 1) defaultToken
  else s.tokens.getD s.pos defaultToken

/-- `Parser.peekToken`: the token after the cursor, or `none` past the end. -/
def peekToken (s : PState) : Option Token :=
  if s.tokens.length ≤ s.pos + 1 then none else some (s.tokens.getD (s.pos + 1) defaultToken)

/-- `Parser.advance`: move the cursor forward, a no-op once past the end. -/
def advance (s : PState) : PState :=
  if s.pos < s.tokens.length then { s with pos := s.pos + 1 } else s

/-- `Parser.isAtEnd`: cursor past the end or at the EOF token. -/
def isAtEnd (s : PState) : Prop :=
  s.tokens.length ≤ s.pos ∨ (currentToken s).type = .EOF

instance (s : PState) : Decidable (isAtEnd s) := by unfold isAtEnd; infer_instance

/-- `Parser.addError`: append a diagnostic built from a token's position. -/
def addError (s : PState) (t : Token) (message code : String) (suggestion : Option String) : PState :=
  { s with errors := s.errors ++ [⟨t.line, t.column, message, code, suggestion⟩] }

/-- `parseInt` on the (all-digit) text of a NUMBER token. -/
def toNatD (v : String) : Nat :=
  let rec go : List Char → Nat → Nat
    | [], acc => acc
    | c :: rest, acc => if isDigitCh c then go rest (acc * 10 + (c.toNat - 48)) else acc
  go v.data 0

/-- JavaScript `slice(1, -1)`: strip the first and last character (used to
remove quotes from STRING token text). -/
def stripQuotes (v : String) : String := String.mk ((v.data.drop 1).dropLast)

/-- JavaScript `Array.join(' ')`. -/
def joinSpace : List String → String
  | [] => ""
  | [x] => x
  | x :: xs => x ++ " " ++ joinSpace xs

/-- JavaScript `String.trim()` (strip `\s` characters from both ends). -/
def jsTrim (s : String) : String :=
  String.mk (((s.data.dropWhile jsSpace).reverse.dropWhile jsSpace).reverse)

/-- The skip-to-statement-terminator loop shared by the meta-statement parsers
(`while (!isAtEnd && type !== SEMICOLON && type !== EOF) advance`). -/
def skipToSemi : Nat → PState → Option PState
  | 0, _ => none
  | fuel + 1, s =>
    if ¬ isAtEnd s ∧ (currentToken s).type ≠ .SEMICOLON ∧ (currentToken s).type ≠ .EOF then
      skipToSemi fuel (advance s)
    else some s

/-- `Parser.skipUntilSemicolon`: skip to the terminator, then consume a
trailing semicolon when present. -/
def skipUntilSemicolon (fuel : Nat) (s : PState) : Option PState := do
  let s1 ← skipToSemi fuel s
  pure (if (currentToken s1).type = .SEMICOLON then advance s1 else s1)

/-- The lookahead of `parseClassDef` searching the statement for a bare `=`
(up to the next semicolon or EOF). -/
def scanEq : List Token → Bool
  | [] => false
  | t :: rest =>
    if t.type = .SEMICOLON ∨ t.type = .EOF then false
    else if t.value = "=" then true
    else scanEq rest

/-- `Parser.parseClassDef`: flag `key=value` CSS syntax, then skip the whole
statement. -/
def parseClassDef (fuel : Nat) (s : PState) : Option PState :=
  let classDefToken := currentToken s
  let s1 := advance s
  let hasEqualsSyntax := scanEq (s1.tokens.drop s1.pos)
  let s2 :=
    if hasEqualsSyntax then
      addError s1 classDefToken "classDef with equals syntax is not supported in flowcharts"
        "UNSUPPORTED_CLASSDEF_EQUALS_SYNTAX"
        (some "Use colon syntax instead (e.g., fill:#f9f instead of fill=lightblue)")
    else s1
  skipUntilSemicolon fuel s2

/-- `Parser.parseClassAssignment`: skip `class`, up to two identifiers, then
the rest of the statement. -/
def parseClassAssignment (fuel : Nat) (s : PState) : Option PState :=
  let s1 := advance s
  let s2 := if (currentToken s1).type = .IDENTIFIER then advance s1 else s1
  let s3 := if (currentToken s2).type = .IDENTIFIER then advance s2 else s2
  skipUntilSemicolon fuel s3

/-- The out-of-bounds diagnostic of `parseLinkStyle`, at the `linkStyle`
token's position. -/
def linkStyleDiag (t : Token) (linkIndex linkCount : Nat) : ValidationError :=
  ⟨t.line, t.column,
   "linkStyle index " ++ toString linkIndex ++ " is out of bounds (only " ++
     toString linkCount ++ " link(s) defined)",
   "INVALID_LINKSTYLE_INDEX",
   some ("Use a link index between 0 and " ++ toString (linkCount - 1))⟩

/-- `Parser.parseLinkStyle`: read the numeric link index, flag it when it is
not below the current flowchart's link counter, then skip the statement. -/
def parseLinkStyle (fuel : Nat) (s : PState) : Option PState :=
  let linkStyleToken := currentToken s
  let s1 := advance s
  if (currentToken s1).type = .NUMBER then
    let linkIndex := toNatD (currentToken s1).value
    let s2 := advance s1
    let s3 :=
      if s2.linkCount ≤ linkIndex then
        { s2 with errors := s2.errors ++ [linkStyleDiag linkStyleToken linkIndex s2.linkCount] }
      else s2
    skipUntilSemicolon fuel s3
  else skipUntilSemicolon fuel s1

/-- `Parser.parseStyle`: skip the whole statement. -/
def parseStyle (fuel : Nat) (s : PState) : Option PState :=
  skipUntilSemicolon fuel (advance s)

/-- `Parser.parseClickStatement`: skip the whole statement. -/
def parseClickStatement (fuel : Nat) (s : PState) : Option PState :=
  skipUntilSemicolon fuel (advance s)

/-- `Parser.parseNoteStatement`: reject standalone notes (lookahead one past
the token after `note`), otherwise skip the statement. -/
def parseNoteStatement (fuel : Nat) (s : PState) : Option PState :=
  let s1 := advance s
  match peekToken s1 with
  | some nt =>
    if nt.value = "for" ∨ nt.type = .IDENTIFIER then
      some (addError s1 (currentToken s1) "Standalone note statements are not supported in flowcharts"
        "INVALID_NOTE_SYNTAX" (some "Use note arrows instead: A -.->|note text| B"))
    else skipUntilSemicolon fuel s1
  | none => skipUntilSemicolon fuel s1

/-- `Parser.parseDirectionStatement`: skip `direction` and its value. -/
def parseDirectionStatement (s : PState) : PState :=
  let s1 := advance s
  if (currentToken s1).type = .IDENTIFIER then advance s1 else s1

/-- `Parser.skipTitleDirective`: skip `title`, an optional string, and the rest
of the statement. -/
def skipTitleDirective (fuel : Nat) (s : PState) : Option PState :=
  let s1 := advance s
  let s2 := if (currentToken s1).type = .STRING then advance s1 else s1
  skipUntilSemicolon fuel s2

/-- The backwards scan of `Parser.isInlineComment`: look for a non-whitespace
token on the same line before index `i`. -/
def inlineScanBack (tokens : List Token) (currentLine : Nat) : Nat → Bool
  | 0 => false
  | i + 1 =>
    let t := tokens.getD i defaultToken
    if t.line < currentLine then false
    else if t.line = currentLine ∧ t.type ≠ .WHITESPACE ∧ t.type ≠ .NEWLINE then true
    else inlineScanBack tokens currentLine i

/-- `Parser.isInlineComment`: the comment token (which is the current token)
has a non-whitespace token before it on the same line. -/
def isInlineComment (s : PState) (commentToken : Token) : Bool :=
  let idx := if s.tokens.length ≤ s.pos then s.tokens.length - 1 else s.pos
  inlineScanBack s.tokens commentToken.line idx

/-- The MISSING_ARROW diagnostic of `validateFlowchartConnections`, carrying
the second node's position (via a synthesized token). -/
def missingArrowDiag (id1 : String) (line2 column2 : Nat) (id2 : String) : ValidationError :=
  ⟨line2, column2,
   "Adjacent nodes \x27" ++ id1 ++ "\x27 and \x27" ++ id2 ++ "\x27 on same line without arrow connection",
   "MISSING_ARROW",
   some "Add an arrow (-->) between the nodes or place them on separate lines"⟩

/-- The check of one consecutive element pair in
`Parser.validateFlowchartConnections`: two `node` elements on the same source
line yield one MISSING_ARROW diagnostic. -/
def pairErr : FlowchartElement → FlowchartElement → List ValidationError
  | FlowchartElement.node l1 _ id1 _ _, FlowchartElement.node l2 c2 id2 _ _ =>
    if l1 = l2 then [missingArrowDiag id1 l2 c2 id2] else []
  | _, _ => []

/-- The sliding-window pass of `Parser.validateFlowchartConnections` starting
from a previous element: check each consecutive pair in order. -/
def connErrorsFrom (prev : FlowchartElement) : List FlowchartElement → List ValidationError
  | [] => []
  | b :: rest => pairErr prev b ++ connErrorsFrom b rest

/-- The diagnostics produced by `Parser.validateFlowchartConnections`: for each
pair of consecutive elements, the pair check, in list order. -/
def connErrors : List FlowchartElement → List ValidationError
  | [] => []
  | a :: rest => connErrorsFrom a rest

/-- `Parser.validateFlowchartConnections` as a state transformer. -/
def validateFlowchartConnections (s : PState) (nodes : List FlowchartElement) : PState :=
  { s with errors := s.errors ++ connErrors nodes }

/-- The MISSING_DATA diagnostic of `validateXYChart`, at the synthesized
position (1, 1). -/
def missingDataDiag : ValidationError :=
  ⟨1, 1, "No data provided for chart", "MISSING_DATA",
   some "Add bar, line, or other data series to the chart"⟩

/-- `Parser.validateXYChart`: a chart with no data series is flagged. -/
def validateXYChart (s : PState) (data : List SeriesData) : PState :=
  if data.length = 0 then { s with errors := s.errors ++ [missingDataDiag] } else s

/-- `collectIdentifiersAsLabel`: join identifier (and optionally number) token
texts with single spaces, guarded by `isAtEnd`. -/
def collectIdentsAcc (includeNumbers : Bool) : Nat → PState → List String → Option (List String × PState)
  | 0, _, _ => none
  | fuel + 1, s, acc =>
    if ((currentToken s).type = .IDENTIFIER ∨
        (includeNumbers ∧ (currentToken s).type = .NUMBER)) ∧ ¬ isAtEnd s then
      collectIdentsAcc includeNumbers fuel (advance s) (acc ++ [(currentToken s).value])
    else some (acc, s)

/-- `Parser.collectIdentifiersAsLabel`. -/
def collectIdentifiersAsLabel (includeNumbers : Bool) (fuel : Nat) (s : PState) : Option (String × PState) := do
  let (parts, s1) ← collectIdentsAcc includeNumbers fuel s []
  pure (joinSpace parts, s1)

/-- The plain `while (type === IDENTIFIER)` label-collect loop of the
round/circle/diamond shapes (no `isAtEnd` guard in the source). -/
def collectIdentsPlain : Nat → PState → List String → Option (List String × PState)
  | 0, _, _ => none
  | fuel + 1, s, acc =>
    if (currentToken s).type = .IDENTIFIER then
      collectIdentsPlain fuel (advance s) (acc ++ [(currentToken s).value])
    else some (acc, s)

/-- The `while (IDENTIFIER || NUMBER)` label-collect loop of `parseArrow`
(no `isAtEnd` guard in the source). -/
def collectIdentsNum : Nat → PState → List String → Option (List String × PState)
  | 0, _, _ => none
  | fuel + 1, s, acc =>
    if (currentToken s).type = .IDENTIFIER ∨ (currentToken s).type = .NUMBER then
      collectIdentsNum fuel (advance s) (acc ++ [(currentToken s).value])
    else some (acc, s)

/-- The missing-closer recovery scan of `parseNode`: skip to the closing
delimiter, an arrow token, or EOF. -/
def recoverTo (close : TokenType) : Nat → PState → Option PState
  | 0, _ => none
  | fuel + 1, s =>
    if ¬ isAtEnd s ∧ (currentToken s).type ≠ close ∧ (currentToken s).type ≠ .ARROW ∧
        (currentToken s).type ≠ .DOTTED_ARROW ∧ (currentToken s).type ≠ .EOF then
      recoverTo close fuel (advance s)
    else some s

/-- The close-delimiter handling shared by the four node shapes: consume the
closer, or report it missing and recover. -/
def closeShape (fuel : Nat) (s : PState) (close : TokenType) (message : String) : Option PState :=
  if (currentToken s).type = close then some (advance s)
  else do
    let s1 := addError s (currentToken s) message "PARSE_ERROR" none
    let s2 ← recoverTo close fuel s1
    pure (if (currentToken s2).type = close then advance s2 else s2)

/-- `Parser.parseNode`: a node id with an optional shaped label
(`[...]` rect, `(...)` round, `((...))` circle, `{...}` diamond). -/
def parseNode (fuel : Nat) (s : PState) : Option (FlowchartElement × PState) :=
  let idToken := currentToken s
  if idToken.type = .EOF then
    some (.node idToken.line idToken.column "" none .rect,
      addError s idToken "Expected node identifier" "MISSING_NODE" (some "Add a node identifier"))
  else
    let id := idToken.value
    let s1 := advance s
    if (currentToken s1).type = .BRACKET_OPEN then do
      let s2 := advance s1
      let (label, s3) ←
        if (currentToken s2).type = .STRING then
          pure (some (stripQuotes (currentToken s2).value), advance s2)
        else if (currentToken s2).type = .IDENTIFIER ∨ (currentToken s2).type = .NUMBER then do
          let (lab, sx) ← collectIdentifiersAsLabel true fuel s2
          pure (some lab, sx)
        else pure (none, s2)
      let s4 ← closeShape fuel s3 .BRACKET_CLOSE "Expected closing bracket ]"
      pure (.node idToken.line idToken.column id label .rect, s4)
    else if (currentToken s1).type = .PAREN_OPEN then do
      let s2 := advance s1
      let (label, s3) ←
        if (currentToken s2).type = .STRING then
          pure (some (stripQuotes (currentToken s2).value), advance s2)
        else if (currentToken s2).type = .IDENTIFIER then do
          let (parts, sx) ← collectIdentsPlain fuel s2 []
          pure (some (joinSpace parts), sx)
        else pure (none, s2)
      let s4 ← closeShape fuel s3 .PAREN_CLOSE "Expected closing parenthesis )"
      pure (.node idToken.line idToken.column id label .round, s4)
    else if (currentToken s1).type = .DOUBLE_PAREN_OPEN then do
      let s2 := advance s1
      let (label, s3) ←
        if (currentToken s2).type = .STRING then
          pure (some (stripQuotes (currentToken s2).value), advance s2)
        else if (currentToken s2).type = .IDENTIFIER then do
          let (parts, sx) ← collectIdentsPlain fuel s2 []
          pure (some (joinSpace parts), sx)
        else pure (none, s2)
      let s4 ← closeShape fuel s3 .DOUBLE_PAREN_CLOSE "Expected closing double parenthesis ))"
      pure (.node idToken.line idToken.column id label .circle, s4)
    else if (currentToken s1).type = .BRACE_OPEN then do
      let s2 := advance s1
      let (label, s3) ←
        if (currentToken s2).type = .STRING then
          pure (some (stripQuotes (currentToken s2).value), advance s2)
        else if (currentToken s2).type = .IDENTIFIER then do
          let (parts, sx) ← collectIdentsPlain fuel s2 []
          pure (some (joinSpace parts), sx)
        else pure (none, s2)
      let s4 ← closeShape fuel s3 .BRACE_CLOSE "Expected closing brace \x7d"
      pure (.node idToken.line idToken.column id label .diamond, s4)
    else
      some (.node idToken.line idToken.column id none .rect, s1)

/-- The node id of a flowchart element (`.id` access on the destination of an
arrow). -/
def elemId : FlowchartElement → Option String
  | .node _ _ id _ _ => some id
  | _ => none

/-- `Parser.parseArrow`: consume an arrow token (incrementing the link
counter), an optional `|label|`, and the destination node; an arrow at end of
input is reported as INCOMPLETE_ARROW. -/
def parseArrow (fuel : Nat) (s : PState) : Option (FlowchartElement × PState) :=
  let arrowToken := currentToken s
  let sA := advance s
  let s1 := { sA with linkCount := sA.linkCount + 1 }
  do
    let (label, s2) ←
      if (currentToken s1).type = .PIPE then do
        let s2a := advance s1
        let (label, s2b) ←
          if (currentToken s2a).type = .STRING then
            pure (some (stripQuotes (currentToken s2a).value), advance s2a)
          else if (currentToken s2a).type = .IDENTIFIER ∨ (currentToken s2a).type = .NUMBER then do
            let (parts, sx) ← collectIdentsNum fuel s2a []
            pure (some (joinSpace parts), sx)
          else pure (none, s2a)
        pure (label,
          if (currentToken s2b).type = .PIPE then advance s2b
          else addError s2b (currentToken s2b) "Expected closing pipe |" "PARSE_ERROR" none)
      else pure (none, s1)
    if isAtEnd s2 ∨ (currentToken s2).type = .EOF then
      pure (.arrow arrowToken.line arrowToken.column label none,
        addError s2 arrowToken "Arrow must have a destination node" "INCOMPLETE_ARROW"
          (some "Add a node after the arrow"))
    else do
      let (toNode, s3) ← parseNode fuel s2
      pure (.arrow arrowToken.line arrowToken.column label (elemId toNode), s3)

/-- The child-element loop of `parseSubgraph`, parametrized by the
element parser at the remaining fuel (terminated only by `isAtEnd` or a
case-insensitive `end` identifier; a `null` element does not advance). -/
def subgraphChildrenAux (elemFn : PState → Option (Option FlowchartElement × PState)) :
    Nat → PState → List FlowchartElement → Option (List FlowchartElement × PState)
  | 0, _, _ => none
  | fuel + 1, s, acc =>
    if ¬ isAtEnd s ∧
        ¬ ((currentToken s).type = .IDENTIFIER ∧ lowerStr (currentToken s).value = "end") then do
      let (child, s1) ← elemFn s
      subgraphChildrenAux elemFn fuel s1 (acc ++ (match child with | some c => [c] | none => []))
    else some (acc, s)

/-- `Parser.parseSubgraph`, parametrized by the element parser: `subgraph <id>
[label]`, children to `end` (missing `end` is reported), then the
connectivity pass over the children. -/
def parseSubgraphAux (elemFn : PState → Option (Option FlowchartElement × PState))
    (fuel : Nat) (s : PState) : Option (FlowchartElement × PState) :=
  let startToken := currentToken s
  let s1 := advance s
  let id := (currentToken s1).value
  let s2 := advance s1
  let s3 :=
    if (currentToken s2).type = .BRACKET_OPEN then
      let sA := advance s2
      let sB := if (currentToken sA).type = .STRING then advance sA else sA
      if (currentToken sB).type = .BRACKET_CLOSE then advance sB else sB
    else s2
  do
    let (children, s4) ← subgraphChildrenAux elemFn fuel s3 []
    let s5 :=
      if (currentToken s4).type = .IDENTIFIER ∧ lowerStr (currentToken s4).value = "end" then
        advance s4
      else
        addError s4 (currentToken s4) "Expected \"end\" to close subgraph" "MISSING_SUBGRAPH_END"
          (some "Add \"end\" keyword to close the subgraph")
    let s6 := validateFlowchartConnections s5 children
    pure (.subgraphElement startToken.line startToken.column id children, s6)

/-- `Parser.parseFlowchartElement`: dispatch on the current token; the inner
`Option` mirrors the source's `null` returns (skipped punctuation). -/
def parseFlowchartElement : Nat → PState → Option (Option FlowchartElement × PState)
  | 0, _ => none
  | fuel + 1, s =>
    let token := currentToken s
    if token.type = .IDENTIFIER ∧ lowerStr token.value = "end" then
      some (some (.processed token.line token.column),
        advance (addError s token "Unexpected \"end\" keyword - found end without matching subgraph"
          "UNMATCHED_END" (some "Remove the end keyword or add a corresponding subgraph")))
    else if token.value = "classDef" then do
      let s1 ← parseClassDef fuel s
      pure (some (.processed token.line token.column), s1)
    else if token.value = "class" then do
      let s1 ← parseClassAssignment fuel s
      pure (some (.processed token.line token.column), s1)
    else if token.value = "linkStyle" then do
      let s1 ← parseLinkStyle fuel s
      pure (some (.processed token.line token.column), s1)
    else if token.value = "style" then do
      let s1 ← parseStyle fuel s
      pure (some (.processed token.line token.column), s1)
    else if token.value = "click" then do
      let s1 ← parseClickStatement fuel s
      pure (some (.processed token.line token.column), s1)
    else if token.value = "note" then do
      let s1 ← parseNoteStatement fuel s
      pure (some (.processed token.line token.column), s1)
    else if token.value = "direction" then
      some (some (.processed token.line token.column), parseDirectionStatement s)
    else if token.value = "title" then do
      let sE := addError s token "Title directive is not supported in flowcharts"
        "UNSUPPORTED_TITLE_DIRECTIVE" (some "Remove the title directive - flowcharts do not support titles")
      let s1 ← skipTitleDirective fuel sE
      pure (some (.processed token.line token.column), s1)
    else if token.type = .IDENTIFIER then do
      let (n, s1) ← parseNode fuel s
      pure (some n, s1)
    else if token.type = .ARROW ∨ token.type = .DOTTED_ARROW ∨ token.type = .THICK_ARROW then do
      let (a, s1) ← parseArrow fuel s
      pure (some a, s1)
    else if token.type = .SUBGRAPH then do
      let (g, s1) ← parseSubgraphAux (parseFlowchartElement fuel) fuel s
      pure (some g, s1)
    else if token.type = .COMMENT then
      let s1 :=
        if isInlineComment s token then
          addError s token "Inline comments are not supported" "INLINE_COMMENT_NOT_SUPPORTED"
            (some "Move comment to its own line")
        else s
      some (some (.processed token.line token.column), advance s1)
    else if token.type = .DIRECTIVE then
      some (some (.processed token.line token.column), advance s)
    else if token.type = .SEMICOLON ∨ token.type = .COLON ∨ token.type = .COMMA ∨
        token.type = .EQUALS ∨ token.type = .PIPE ∨ token.type = .NUMBER ∨
        token.type = .STRING ∨ token.type = .BRACKET_OPEN ∨ token.type = .BRACKET_CLOSE ∨
        token.type = .PAREN_OPEN ∨ token.type = .PAREN_CLOSE ∨ token.type = .BRACE_OPEN ∨
        token.type = .BRACE_CLOSE then
      some (none, advance s)
    else
      some (none, s)

/-- `Parser.parseSubgraph` at a given fuel level. -/
def parseSubgraph : Nat → PState → Option (FlowchartElement × PState)
  | 0, _ => none
  | fuel + 1, s => parseSubgraphAux (parseFlowchartElement fuel) fuel s


/-- The diagram-header token types that terminate a flowchart early (mixed
diagrams). -/
def diagramTypeTokens : List TokenType :=
  [.SEQUENCE_DIAGRAM, .CLASS_DIAGRAM, .STATE_DIAGRAM, .STATE_DIAGRAM_V2, .ER_DIAGRAM,
   .JOURNEY, .GANTT, .PIE, .GITGRAPH, .MINDMAP, .TIMELINE, .XYCHART_BETA]

/-- The element loop of `parseFlowchart`: collect elements (dropping
`processed` markers) until EOF or another diagram header; a `null` element
advances to avoid an infinite loop. -/
def flowLoop : Nat → PState → List FlowchartElement → Option (List FlowchartElement × PState)
  | 0, _, _ => none
  | fuel + 1, s, acc =>
    if ¬ isAtEnd s ∧ (currentToken s).type ≠ .EOF then
      if (currentToken s).type ∈ diagramTypeTokens then some (acc, s)
      else do
        let (elem, s1) ← parseFlowchartElement fuel s
        match elem with
        | some (FlowchartElement.processed _ _) => flowLoop fuel s1 acc
        | some n => flowLoop fuel s1 (acc ++ [n])
        | none => flowLoop fuel (advance s1) acc
    else some (acc, s)

/-- `Parser.parseFlowchart`: header, link-counter reset, optional direction,
the element loop, then the connectivity pass. -/
def parseFlowchart (fuel : Nat) (s : PState) : Option (Ast × PState) :=
  let startToken := currentToken s
  let sH := advance s
  let s1 := { sH with linkCount := 0 }
  let dir :=
    if (currentToken s1).type = .IDENTIFIER then (some (currentToken s1).value, advance s1)
    else (none, s1)
  do
    let (nodes, s3) ← flowLoop fuel dir.2 []
    let s4 := validateFlowchartConnections s3 nodes
    pure (Ast.flowchart startToken.line startToken.column dir.1 nodes, s4)

/-- `Parser.parseParticipant`: `participant <name|string> [as alias]`,
reporting a missing name. -/
def parseParticipant (s : PState) : ParticipantNode × PState :=
  let startToken := currentToken s
  let s1 := advance s
  let nameToken := currentToken s1
  if nameToken.type = .EOF ∨ isAtEnd s1 ∨
      (nameToken.type ≠ .IDENTIFIER ∧ nameToken.type ≠ .STRING) then
    (⟨startToken.line, startToken.column, "", none⟩,
     addError s1 startToken "Participant declaration must have a name" "MISSING_PARTICIPANT_NAME"
       (some "Add a participant name after the participant keyword"))
  else
    let name := if nameToken.type = .STRING then stripQuotes nameToken.value else nameToken.value
    let s2 := advance s1
    let aliasRes :=
      if (currentToken s2).type = .IDENTIFIER ∧ (currentToken s2).value = "as" then
        let s2a := advance s2
        if (currentToken s2a).type = .IDENTIFIER ∨ (currentToken s2a).type = .STRING then
          (some (if (currentToken s2a).type = .STRING then stripQuotes (currentToken s2a).value
                 else (currentToken s2a).value), advance s2a)
        else (none, s2a)
      else (none, s2)
    (⟨startToken.line, startToken.column, name, aliasRes.1⟩, aliasRes.2)

/-- The arrow-type mapping of `parseMessageLine` (`->>`, `->`, `-->` are
solid; `-->>` is dotted; anything else keeps the initial solid). -/
def arrowTypeOf (v : String) : SeqArrowType :=
  if v = "->>" then .solid
  else if v = "-->>" then .dotted
  else if v = "->" then .solid
  else if v = "-->" then .solid
  else .solid

/-- The rest-of-line message-text collection loop of `parseMessageLine`:
token texts joined by spaces (strings unquoted, whitespace tokens skipped). -/
def msgCollect : Nat → PState → Nat → List String → Option (List String × PState)
  | 0, _, _, _ => none
  | fuel + 1, s, startLine, acc =>
    if ¬ isAtEnd s ∧ (currentToken s).line = startLine ∧ (currentToken s).type ≠ .EOF then
      let t := currentToken s
      if t.type = .STRING then msgCollect fuel (advance s) startLine (acc ++ [stripQuotes t.value])
      else if t.type = .WHITESPACE ∨ t.type = .NEWLINE then msgCollect fuel (advance s) startLine acc
      else msgCollect fuel (advance s) startLine (acc ++ [t.value])
    else some (acc, s)

/-- `Parser.parseMessageLine`: `from`, arrow (mapped to its arrow type), `to`
(INCOMPLETE_MESSAGE at end of input), optional colon, then the rest of the
line as the message text. -/
def parseMessageLine (fuel : Nat) (s : PState) : Option (MessageNode × PState) :=
  let fromToken := currentToken s
  let from_ := if fromToken.type = .STRING then stripQuotes fromToken.value else fromToken.value
  let s1 := advance s
  let arrowToken := currentToken s1
  let arrowRes :=
    if arrowToken.type = .SEQUENCE_ARROW ∨ arrowToken.type = .ARROW then
      (arrowTypeOf arrowToken.value, advance s1)
    else (SeqArrowType.solid, s1)
  let s2 := arrowRes.2
  let toToken := currentToken s2
  if toToken.type = .EOF ∨ isAtEnd s2 then
    some (⟨fromToken.line, fromToken.column, from_, "", "", arrowRes.1⟩,
      addError s2 arrowToken "Incomplete message: arrow must have a destination participant"
        "INCOMPLETE_MESSAGE" (some "Add a destination participant after the arrow"))
  else
    let target := if toToken.type = .STRING then stripQuotes toToken.value else toToken.value
    let s3 := advance s2
    let s4 := if (currentToken s3).type = .COLON then advance s3 else s3
    let startLine := (currentToken s4).line
    do
      let (parts, s5) ← msgCollect fuel s4 startLine []
      pure (⟨fromToken.line, fromToken.column, from_, target, jsTrim (joinSpace parts), arrowRes.1⟩, s5)

/-- The statement loop of `parseSequenceDiagram`: participants, directives,
rejected styling directives, messages (identifier/string followed by an
arrow), everything else skipped. -/
def seqLoop : Nat → PState → List ParticipantNode → List MessageNode →
    Option (List ParticipantNode × List MessageNode × PState)
  | 0, _, _, _ => none
  | fuel + 1, s, ps, ms =>
    if ¬ isAtEnd s ∧ (currentToken s).type ≠ .EOF then
      let token := currentToken s
      if token.type = .PARTICIPANT then
        let r := parseParticipant s
        seqLoop fuel r.2 (ps ++ [r.1]) ms
      else if token.type = .DIRECTIVE then seqLoop fuel (advance s) ps ms
      else if token.value = "classDef" ∨ token.value = "class" ∨ token.value = "linkStyle" ∨
          token.value = "style" ∨ token.value = "click" ∨ token.value = "note" then do
        let sE := addError s token (token.value ++ " directive is not supported in sequence diagrams")
          "UNSUPPORTED_STYLING_DIRECTIVE" (some "Styling directives are not supported in sequence diagrams")
        let s1 ← skipUntilSemicolon fuel sE
        seqLoop fuel s1 ps ms
      else if token.type = .IDENTIFIER ∨ token.type = .STRING then
        match peekToken s with
        | some nt =>
          if nt.type = .SEQUENCE_ARROW ∨ nt.type = .ARROW then do
            let (m, s1) ← parseMessageLine fuel s
            seqLoop fuel s1 ps (ms ++ [m])
          else seqLoop fuel (advance s) ps ms
        | none => seqLoop fuel (advance s) ps ms
      else seqLoop fuel (advance s) ps ms
    else some (ps, ms, s)

/-- `Parser.parseSequenceDiagram` (the `validateSequenceDiagram` post-pass of
the source is a deliberate no-op). -/
def parseSequenceDiagram (fuel : Nat) (s : PState) : Option (Ast × PState) :=
  let startToken := currentToken s
  do
    let (ps, ms, s1) ← seqLoop fuel (advance s) [] []
    pure (Ast.sequence startToken.line startToken.column ps ms, s1)

/-- The character class requiring quoting in `isValidIdentifier`
(`['"&<>(){}[\]|\\\/\s]`). -/
def needsQuoting (c : Char) : Bool :=
  c.toNat = 39 || c = '"' || c = '&' || c = '<' || c = '>' || c = '(' || c = ')' ||
  c = Char.ofNat 123 || c = Char.ofNat 125 || c = '[' || c = ']' || c = '|' ||
  c = '\\' || c = '/' || jsSpace c

/-- `Parser.isValidIdentifier`: context-dependent identifier validity. -/
def isValidIdentifier (identifier : String) (context : String) : Bool :=
  let special := identifier.data.any needsQuoting
  if context = "xychart-axis" then !special
  else if context = "flowchart-label" then true
  else if context = "sequence-participant" then !special
  else !special

/-- The INVALID_IDENTIFIER diagnostic of the x-axis label scan. -/
def invalidIdentifierDiag (t : Token) : ValidationError :=
  ⟨t.line, t.column,
   "Identifier \x27" ++ t.value ++ "\x27 contains special characters and should be quoted",
   "INVALID_IDENTIFIER",
   some ("Use \"" ++ t.value ++ "\" instead of " ++ t.value)⟩

/-- The x-axis bracket-list loop of `parseXYChart`. Its guard tests only for
the closing bracket, never for end of input: when the list is unclosed the
state reaches a fixed point at EOF and the loop never exits. -/
def xAxisItems : Nat → PState → List String → Option (List String × PState)
  | 0, _, _ => none
  | fuel + 1, s, acc =>
    if (currentToken s).type ≠ .BRACKET_CLOSE then
      let step :=
        if (currentToken s).type = .STRING then (acc ++ [stripQuotes (currentToken s).value], s)
        else if (currentToken s).type = .IDENTIFIER then
          let identifier := (currentToken s).value
          let sE :=
            if ¬ isValidIdentifier identifier "xychart-axis" then
              { s with errors := s.errors ++ [invalidIdentifierDiag (currentToken s)] }
            else s
          (acc ++ [identifier], sE)
        else (acc, s)
      let s1 := advance step.2
      let s2 := if (currentToken s1).type = .COMMA then advance s1 else s1
      xAxisItems fuel s2 step.1
    else some (acc, s)

/-- The `bar`/`line` bracket-list loop of `parseXYChart`; like the x-axis loop
its guard tests only for the closing bracket. -/
def barValues : Nat → PState → List Nat → Option (List Nat × PState)
  | 0, _, _ => none
  | fuel + 1, s, acc =>
    if (currentToken s).type ≠ .BRACKET_CLOSE then
      let acc2 :=
        if (currentToken s).type = .NUMBER then acc ++ [toNatD (currentToken s).value] else acc
      let s1 := advance s
      let s2 := if (currentToken s1).type = .COMMA then advance s1 else s1
      barValues fuel s2 acc2
    else some (acc, s)

/-- The statement loop of `parseXYChart`: `title`, `x-axis [...]`
(INVALID_X_AXIS_SYNTAX without the bracket), `y-axis "label" min --> max`
(INVALID_Y_AXIS_SYNTAX on a `min` keyword), `bar`/`line` series, rejected
`area`/`scatter`/`series`, everything else skipped. -/
def xyMain : Nat → PState → Option String → List String → Option YAxisData → List SeriesData →
    Option (Option String × List String × Option YAxisData × List SeriesData × PState)
  | 0, _, _, _, _, _ => none
  | fuel + 1, s, title, xAxis, yAxis, data =>
    if ¬ isAtEnd s ∧ (currentToken s).type ≠ .EOF then
      let token := currentToken s
      if token.type = .DIRECTIVE then xyMain fuel (advance s) title xAxis yAxis data
      else if token.value = "title" then
        let s1 := advance s
        if (currentToken s1).type = .STRING then
          xyMain fuel (advance s1) (some (stripQuotes (currentToken s1).value)) xAxis yAxis data
        else xyMain fuel s1 title xAxis yAxis data
      else if token.value = "x-axis" then
        let s1 := advance s
        if (currentToken s1).type = .BRACKET_OPEN then do
          let (items, s2) ← xAxisItems fuel (advance s1) xAxis
          xyMain fuel (advance s2) title items yAxis data
        else
          xyMain fuel (addError s1 (currentToken s1)
            "x-axis must be followed by a bracketed list of labels" "INVALID_X_AXIS_SYNTAX"
            (some "Use x-axis [\"Label1\", \"Label2\", \"Label3\"] format")) title xAxis yAxis data
      else if token.value = "y-axis" then
        let s1 := advance s
        if (currentToken s1).type = .STRING then
          let label := stripQuotes (currentToken s1).value
          let s2 := advance s1
          if (currentToken s2).value = "min" then
            xyMain fuel (advance (addError s2 (currentToken s2)
              "y-axis syntax does not support \"min\" keyword" "INVALID_Y_AXIS_SYNTAX"
              (some "Use format: y-axis \"label\" minValue --> maxValue"))) title xAxis yAxis data
          else if (currentToken s2).type = .NUMBER then
            let minv := toNatD (currentToken s2).value
            let s3 := advance s2
            if (currentToken s3).value = "-->" then
              let s4 := advance s3
              if (currentToken s4).type = .NUMBER then
                xyMain fuel (advance s4) title xAxis
                  (some ⟨label, minv, toNatD (currentToken s4).value⟩) data
              else xyMain fuel s4 title xAxis yAxis data
            else xyMain fuel s3 title xAxis yAxis data
          else xyMain fuel s2 title xAxis yAxis data
        else xyMain fuel s1 title xAxis yAxis data
      else if token.value = "bar" ∨ token.value = "line" then
        let s1 := advance s
        if (currentToken s1).type = .BRACKET_OPEN then do
          let (vals, s2) ← barValues fuel (advance s1) []
          xyMain fuel (advance s2) title xAxis yAxis (data ++ [⟨token.value, vals⟩])
        else xyMain fuel s1 title xAxis yAxis data
      else if token.value = "area" ∨ token.value = "scatter" then
        xyMain fuel (advance (addError s token
          ("Chart type \x27" ++ token.value ++ "\x27 is not supported by Mermaid CLI")
          "UNSUPPORTED_CHART_TYPE" (some "Use bar or line chart types instead"))) title xAxis yAxis data
      else if token.value = "series" then
        xyMain fuel (advance (addError s token
          "\x27series\x27 syntax is not supported by Mermaid CLI" "UNSUPPORTED_SERIES_SYNTAX"
          (some "Use bar or line directly instead of series \"name\" type chart"))) title xAxis yAxis data
      else xyMain fuel (advance s) title xAxis yAxis data
    else some (title, xAxis, yAxis, data, s)

/-- `Parser.parseXYChart`: the statement loop, then the MISSING_DATA check. -/
def parseXYChart (fuel : Nat) (s : PState) : Option (Ast × PState) :=
  let startToken := currentToken s
  do
    let (title, xAxis, yAxis, data, s1) ← xyMain fuel (advance s) none [] none []
    let s2 := validateXYChart s1 data
    pure (Ast.xychart startToken.line startToken.column title xAxis
      (yAxis.getD ⟨"", 0, 100⟩) data, s2)

/-- The statement loop of `parseClassDiagram`: `classDef`/`class` are legal;
`linkStyle`/`style`/`click`/`note` are rejected; double parentheses are
rejected; everything else skipped. -/
def classLoop : Nat → PState → Option PState
  | 0, _ => none
  | fuel + 1, s =>
    if ¬ isAtEnd s ∧ (currentToken s).type ≠ .EOF then
      let token := currentToken s
      if token.type = .DIRECTIVE then classLoop fuel (advance s)
      else if token.value = "classDef" then do
        let s1 ← parseClassDef fuel s
        classLoop fuel s1
      else if token.value = "class" then
        let s1 := advance s
        let s2 := if (currentToken s1).type = .IDENTIFIER then advance s1 else s1
        let s3 := if (currentToken s2).type = .IDENTIFIER then advance s2 else s2
        classLoop fuel s3
      else if token.value = "linkStyle" ∨ token.value = "style" ∨ token.value = "click" ∨
          token.value = "note" then do
        let s1 ← skipUntilSemicolon fuel (addError s token
          (token.value ++ " directive is not supported in class diagrams")
          "UNSUPPORTED_STYLING_DIRECTIVE"
          (some "Only classDef and class directives are supported in class diagrams"))
        classLoop fuel s1
      else if token.type = .DOUBLE_PAREN_OPEN ∨ token.type = .DOUBLE_PAREN_CLOSE then
        classLoop fuel (advance (addError s token
          "Double-parentheses syntax ((text)) is not supported in class diagrams"
          "UNSUPPORTED_NODE_SHAPE" (some "Use standard class syntax instead")))
      else classLoop fuel (advance s)
    else some s

/-- `Parser.parseClassDiagram`. -/
def parseClassDiagram (fuel : Nat) (s : PState) : Option (Ast × PState) :=
  let startToken := currentToken s
  do
    let s1 ← classLoop fuel (advance s)
    pure (Ast.plain "class" startToken.line startToken.column, s1)

/-- The statement loop of `parseStateDiagram`: like the class-diagram loop but
`class` runs `parseClassAssignment`. -/
def stateLoop : Nat → PState → Option PState
  | 0, _ => none
  | fuel + 1, s =>
    if ¬ isAtEnd s ∧ (currentToken s).type ≠ .EOF then
      let token := currentToken s
      if token.type = .DIRECTIVE then stateLoop fuel (advance s)
      else if token.value = "classDef" then do
        let s1 ← parseClassDef fuel s
        stateLoop fuel s1
      else if token.value = "class" then do
        let s1 ← parseClassAssignment fuel s
        stateLoop fuel s1
      else if token.value = "linkStyle" ∨ token.value = "style" ∨ token.value = "click" ∨
          token.value = "note" then do
        let s1 ← skipUntilSemicolon fuel (addError s token
          (token.value ++ " directive is not supported in state diagrams")
          "UNSUPPORTED_STYLING_DIRECTIVE"
          (some "Only classDef and class directives are supported in state diagrams"))
        stateLoop fuel s1
      else stateLoop fuel (advance s)
    else some s

/-- `Parser.parseStateDiagram`. -/
def parseStateDiagram (fuel : Nat) (s : PState) : Option (Ast × PState) :=
  let startToken := currentToken s
  do
    let s1 ← stateLoop fuel (advance s)
    pure (Ast.plain "state" startToken.line startToken.column, s1)

/-- The consume-to-end loop shared by the header-only grammars (pie, journey,
gitgraph, mindmap, timeline, gantt, er): advance until end of input, with no
checks of any kind. -/
def consumeAll : Nat → PState → Option PState
  | 0, _ => none
  | fuel + 1, s =>
    if ¬ isAtEnd s ∧ (currentToken s).type ≠ .EOF then consumeAll fuel (advance s)
    else some s

/-- `Parser.parsePieChart`: header recognized, body consumed unchecked. -/
def parsePieChart (fuel : Nat) (s : PState) : Option (Ast × PState) :=
  let startToken := currentToken s
  do
    let s1 ← consumeAll fuel (advance s)
    pure (Ast.plain "pie" startToken.line startToken.column, s1)

/-- `Parser.parseJourney`: header recognized, body consumed unchecked. -/
def parseJourney (fuel : Nat) (s : PState) : Option (Ast × PState) :=
  let startToken := currentToken s
  do
    let s1 ← consumeAll fuel (advance s)
    pure (Ast.plain "journey" startToken.line startToken.column, s1)

/-- `Parser.parseGitgraph`: header recognized, body consumed unchecked. -/
def parseGitgraph (fuel : Nat) (s : PState) : Option (Ast × PState) :=
  let startToken := currentToken s
  do
    let s1 ← consumeAll fuel (advance s)
    pure (Ast.plain "gitgraph" startToken.line startToken.column, s1)

/-- `Parser.parseMindmap`: header recognized, body consumed unchecked. -/
def parseMindmap (fuel : Nat) (s : PState) : Option (Ast × PState) :=
  let startToken := currentToken s
  do
    let s1 ← consumeAll fuel (advance s)
    pure (Ast.plain "mindmap" startToken.line startToken.column, s1)

/-- `Parser.parseTimeline`: header recognized, body consumed unchecked. -/
def parseTimeline (fuel : Nat) (s : PState) : Option (Ast × PState) :=
  let startToken := currentToken s
  do
    let s1 ← consumeAll fuel (advance s)
    pure (Ast.plain "timeline" startToken.line startToken.column, s1)

/-- `Parser.parseGantt`: header recognized, body consumed unchecked. -/
def parseGantt (fuel : Nat) (s : PState) : Option (Ast × PState) :=
  let startToken := currentToken s
  do
    let s1 ← consumeAll fuel (advance s)
    pure (Ast.plain "gantt" startToken.line startToken.column, s1)

/-- `Parser.parseERDiagram`: header recognized, body consumed unchecked. -/
def parseERDiagram (fuel : Nat) (s : PState) : Option (Ast × PState) :=
  let startToken := currentToken s
  do
    let s1 ← consumeAll fuel (advance s)
    pure (Ast.plain "er" startToken.line startToken.column, s1)

/-- The statement loop of `parseBlockDiagram`: `columns <n>` and
`<id>[<label>]` declarations. -/
def blockLoop : Nat → PState → Option Nat → List BlockElement →
    Option (Option Nat × List BlockElement × PState)
  | 0, _, _, _ => none
  | fuel + 1, s, columns, blocks =>
    if ¬ isAtEnd s ∧ (currentToken s).type ≠ .EOF then
      let token := currentToken s
      if token.value = "columns" then
        let s1 := advance s
        if (currentToken s1).type = .NUMBER then
          blockLoop fuel (advance s1) (some (toNatD (currentToken s1).value)) blocks
        else blockLoop fuel s1 columns blocks
      else if token.type = .IDENTIFIER then
        let id := token.value
        let s1 := advance s
        if (currentToken s1).type = .BRACKET_OPEN then
          let s2 := advance s1
          let lab :=
            if (currentToken s2).type = .STRING then (stripQuotes (currentToken s2).value, advance s2)
            else if (currentToken s2).type = .IDENTIFIER then ((currentToken s2).value, advance s2)
            else ("", s2)
          let s4 := if (currentToken lab.2).type = .BRACKET_CLOSE then advance lab.2 else lab.2
          blockLoop fuel s4 columns (blocks ++ [⟨token.line, token.column, id, lab.1⟩])
        else blockLoop fuel s1 columns blocks
      else blockLoop fuel (advance s) columns blocks
    else some (columns, blocks, s)

/-- `Parser.parseBlockDiagram`. -/
def parseBlockDiagram (fuel : Nat) (s : PState) : Option (Ast × PState) :=
  let startToken := currentToken s
  do
    let (columns, blocks, s1) ← blockLoop fuel (advance s) none []
    pure (Ast.block startToken.line startToken.column columns blocks, s1)

/-- The leading-directive skip of `parseDiagram`. -/
def skipDirectives : Nat → PState → Option PState
  | 0, _ => none
  | fuel + 1, s =>
    if ¬ isAtEnd s ∧ (currentToken s).type = .DIRECTIVE then skipDirectives fuel (advance s)
    else some s

/-- `Parser.parseDiagram`: skip leading directives, then dispatch on the first
diagram-defining token; no match yields UNSUPPORTED_DIAGRAM_TYPE... (the
source uses the default PARSE_ERROR code with an "Unsupported diagram type"
message) and an `unknown` root. -/
def parseDiagram (fuel : Nat) (s : PState) : Option (Ast × PState) := do
  let s0 ← skipDirectives fuel s
  if (currentToken s0).type = .GRAPH ∨ (currentToken s0).type = .FLOWCHART then
    parseFlowchart fuel s0
  else if (currentToken s0).type = .SEQUENCE_DIAGRAM then parseSequenceDiagram fuel s0
  else if (currentToken s0).type = .CLASS_DIAGRAM then parseClassDiagram fuel s0
  else if (currentToken s0).type = .STATE_DIAGRAM ∨ (currentToken s0).type = .STATE_DIAGRAM_V2 then
    parseStateDiagram fuel s0
  else if (currentToken s0).type = .PIE then parsePieChart fuel s0
  else if (currentToken s0).type = .JOURNEY then parseJourney fuel s0
  else if (currentToken s0).type = .XYCHART_BETA then parseXYChart fuel s0
  else if (currentToken s0).type = .GITGRAPH then parseGitgraph fuel s0
  else if (currentToken s0).type = .MINDMAP then parseMindmap fuel s0
  else if (currentToken s0).type = .TIMELINE then parseTimeline fuel s0
  else if (currentToken s0).type = .GANTT then parseGantt fuel s0
  else if (currentToken s0).type = .ER_DIAGRAM then parseERDiagram fuel s0
  else if (currentToken s0).type = .BLOCK_BETA then parseBlockDiagram fuel s0
  else
    pure (Ast.plain "unknown" (currentToken s0).line (currentToken s0).column,
      addError s0 (currentToken s0) ("Unsupported diagram type: " ++ (currentToken s0).value)
        "PARSE_ERROR" none)

/-- The diagram-type name of a header token (`Parser.getDiagramType`). -/
def diagramTypeName : TokenType → String
  | .GRAPH => "flowchart"
  | .FLOWCHART => "flowchart"
  | .SEQUENCE_DIAGRAM => "sequence"
  | .CLASS_DIAGRAM => "class"
  | .STATE_DIAGRAM => "state"
  | .STATE_DIAGRAM_V2 => "state"
  | .ER_DIAGRAM => "er"
  | .JOURNEY => "journey"
  | .GANTT => "gantt"
  | .PIE => "pie"
  | .GITGRAPH => "gitgraph"
  | .MINDMAP => "mindmap"
  | .TIMELINE => "timeline"
  | .XYCHART_BETA => "xychart"
  | .BLOCK_BETA => "block"
  | _ => "unknown"

/-- `Parser.getDiagramType`: the name of the first non-directive token's type,
falling back to `unknown`. -/
def getDiagramType (tokens : List Token) : String :=
  match tokens.find? (fun t => t.type ≠ .DIRECTIVE) with
  | none => "unknown"
  | some t => diagramTypeName t.type

/-- `Parser.parse`: run `parseDiagram` on a fresh state and assemble the
result; `isValid` is the emptiness of the diagnostics list by construction. -/
def parse (fuel : Nat) (tokens : List Token) : Option ValidationResult := do
  let (ast, s) ← parseDiagram fuel ⟨tokens, 0, [], 0⟩
  pure ⟨s.errors.isEmpty, getDiagramType tokens, s.errors, some ast⟩

/-- Modelled from the spec: the statically configured validated-against
Mermaid version (`MERMAID_VERSION_INFO.validatedAgainst` from `version.ts`,
which is not among the sources); the spec and the README record it as
11.12.0, tested against Mermaid CLI v11.12.0. -/
def validatedAgainst : String := "11.12.0"

/-- `isMermaidVersionSupported`: plain string equality against the
validated-against version. -/
def isMermaidVersionSupported (version : String) : Bool :=
  version = validatedAgainst

/-- The VERSION_MISMATCH diagnostic appended by `validateMermaid`. -/
def versionMismatchDiag (v : String) : ValidationError :=
  ⟨1, 1,
   "This validator was tested against Mermaid " ++ validatedAgainst ++
     ", but you\x27re requesting validation for version " ++ v ++
     ". Compatibility cannot be guaranteed.",
   "VERSION_MISMATCH",
   some ("Use Mermaid version " ++ validatedAgainst ++
     " or update this validator to support version " ++ v)⟩

/-- The fixed result of `validateMermaid` on a non-string input. -/
def invalidInputTypeResult : ValidationResult :=
  ⟨false, "unknown", [⟨1, 1, "Input must be a string", "INVALID_INPUT_TYPE", none⟩], none⟩

/-- The fixed result of `validateMermaid` on a missing or blank string. -/
def emptyInputResult : ValidationResult :=
  ⟨false, "unknown", [⟨1, 1, "Empty mermaid code", "EMPTY_INPUT", none⟩], none⟩

/-- `validateMermaid`: the public entry point. A non-string input is modelled
as `none`. Non-string and blank inputs return fixed results without touching
the lexer or parser; otherwise the input is tokenized and parsed, and a
non-empty target version different from the validated-against version appends
one VERSION_MISMATCH diagnostic and forces `isValid` to false (the emptiness
test mirrors the JavaScript truthiness of the optional argument). -/
def validateMermaid (fuel : Nat) (mermaidCode : Option String)
    (targetMermaidVersion : Option String) : Option ValidationResult :=
  match mermaidCode with
  | none => some invalidInputTypeResult
  | some code =>
    if (jsTrim code).length = 0 then some emptyInputResult
    else do
      let result ← parse fuel (tokenize code)
      match targetMermaidVersion with
      | some v =>
        if v ≠ "" ∧ ¬ isMermaidVersionSupported v then
          pure { result with errors := result.errors ++ [versionMismatchDiag v], isValid := false }
        else pure result
      | none => pure result

/-- `isValidMermaid`: boolean projection of `validateMermaid`. -/
def isValidMermaid (fuel : Nat) (mermaidCode : Option String) : Option Bool :=
  (validateMermaid fuel mermaidCode none).map (fun r => r.isValid)

/-- `getDiagramTypeOf`: diagram-type projection of `validateMermaid`
(`getDiagramType` export of the entry point). -/
def getDiagramTypeOf (fuel : Nat) (mermaidCode : Option String) : Option String :=
  (validateMermaid fuel mermaidCode none).map (fun r => r.diagramType)

/-- An xychart input whose `x-axis [` list is never closed before end of
input. -/
def unclosedXAxisInput : String := "xychart-beta\nx-axis [a"

/-- The tokenization of `unclosedXAxisInput`. -/
def unclosedXAxisTokens : List Token :=
  [⟨.XYCHART_BETA, "xychart-beta", 1, 13, 0⟩, ⟨.IDENTIFIER, "x-axis", 2, 7, 13⟩,
   ⟨.BRACKET_OPEN, "[", 2, 8, 20⟩, ⟨.IDENTIFIER, "a", 2, 10, 21⟩, ⟨.EOF, "", 2, 10, 22⟩]

/-- The UNSUPPORTED_STYLING_DIRECTIVE diagnostic emitted by the sequence,
class and state grammars for a rejected meta-statement token. -/
def stylingDiag (t : Token) (messageTail suggestion : String) : ValidationError :=
  ⟨t.line, t.column, t.value ++ messageTail,
   "UNSUPPORTED_STYLING_DIRECTIVE", some suggestion⟩

end Merval

namespace Merval

/-! ### Basic state lemmas -/

theorem optBind_eq_some {α β : Type} {x : Option α} {f : α → Option β} {b : β} :
    (x >>= f) = some b ↔ ∃ a, x = some a ∧ f a = some b := by
  cases x <;> simp

theorem advance_tokens (s : PState) : (advance s).tokens = s.tokens := by
  unfold advance; split <;> rfl

theorem advance_errors (s : PState) : (advance s).errors = s.errors := by
  unfold advance; split <;> rfl

theorem advance_linkCount (s : PState) : (advance s).linkCount = s.linkCount := by
  unfold advance; split <;> rfl

theorem skipToSemi_errors : ∀ fuel s s1, skipToSemi fuel s = some s1 → s1.errors = s.errors := by
  intro fuel
  induction fuel with
  | zero => intro s s1 h; cases h
  | succ n ih =>
    intro s s1 h
    unfold skipToSemi at h
    split at h
    · exact (ih _ _ h).trans (advance_errors s)
    · cases h; rfl

theorem skipUntilSemicolon_errors :
    ∀ fuel s s1, skipUntilSemicolon fuel s = some s1 → s1.errors = s.errors := by
  intro fuel s s1 h
  unfold skipUntilSemicolon at h
  rw [optBind_eq_some] at h
  obtain ⟨s2, h2, h3⟩ := h
  have he := skipToSemi_errors fuel s s2 h2
  simp only [Option.pure_def, Option.some.injEq] at h3
  subst h3
  split <;> simpa [advance_errors]

theorem consumeAll_errors : ∀ fuel s s1, consumeAll fuel s = some s1 → s1.errors = s.errors := by
  intro fuel
  induction fuel with
  | zero => intro s s1 h; cases h
  | succ n ih =>
    intro s s1 h
    unfold consumeAll at h
    split at h
    · exact (ih _ _ h).trans (advance_errors s)
    · cases h; rfl

theorem parse_isValid (fuel : Nat) (tokens : List Token) (r : ValidationResult)
    (h : parse fuel tokens = some r) : r.isValid = r.errors.isEmpty := by
  unfold parse at h
  rw [optBind_eq_some] at h
  obtain ⟨⟨ast, s⟩, _, h2⟩ := h
  simp only [Option.pure_def, Option.some.injEq] at h2
  subst h2
  rfl

/-! ### Claim theorems -/

/-- Claim C1: every result returned by `validateMermaid` (non-string path,
blank path, parse path, and the version-mismatch post-processing path)
satisfies `isValid = true` exactly when its diagnostics list is empty; the
source's internal-exception paths are unreachable in the pure embedding and
preserve the invariant trivially. -/
theorem validateMermaid_isValid_iff_no_errors (fuel : Nat) (inp tv : Option String)
    (r : ValidationResult) (h : validateMermaid fuel inp tv = some r) :
    r.isValid = true ↔ r.errors = [] := by
  cases inp with
  | none =>
    simp only [validateMermaid, Option.some.injEq] at h
    subst h
    simp [invalidInputTypeResult]
  | some code =>
    simp only [validateMermaid] at h
    split at h
    · simp only [Option.some.injEq] at h
      subst h
      simp [emptyInputResult]
    · rw [optBind_eq_some] at h
      obtain ⟨result, hp, hrest⟩ := h
      have hinv := parse_isValid fuel (tokenize code) result hp
      split at hrest
      · split at hrest
        · simp only [Option.pure_def, Option.some.injEq] at hrest
          subst hrest
          simp
        · simp only [Option.pure_def, Option.some.injEq] at hrest
          subst hrest
          rw [hinv]
          exact List.isEmpty_iff
      · simp only [Option.pure_def, Option.some.injEq] at hrest
        subst hrest
        rw [hinv]
        exact List.isEmpty_iff

/-- Witness for C1 at a concrete input. -/
theorem validateMermaid_isValid_iff_no_errors_witness :
    validateMermaid 1 none none = some invalidInputTypeResult ∧
      (invalidInputTypeResult.isValid = true ↔ invalidInputTypeResult.errors = []) :=
  ⟨rfl, validateMermaid_isValid_iff_no_errors 1 none none invalidInputTypeResult rfl⟩

/-- Claim C3: a non-string input yields exactly the fixed INVALID_INPUT_TYPE
result and a blank string input exactly the fixed EMPTY_INPUT result — a
single diagnostic, `diagramType = "unknown"`, no AST — for every fuel and
every target version, so the result does not depend on the tokenizer or
parser in any way. -/
theorem validateMermaid_input_shape (fuel : Nat) (tv : Option String) (s : String)
    (h : (jsTrim s).length = 0) :
    validateMermaid fuel none tv = some invalidInputTypeResult ∧
    validateMermaid fuel (some s) tv = some emptyInputResult ∧
    invalidInputTypeResult.errors.map (fun e => e.code) = ["INVALID_INPUT_TYPE"] ∧
    emptyInputResult.errors.map (fun e => e.code) = ["EMPTY_INPUT"] ∧
    invalidInputTypeResult.diagramType = "unknown" ∧
    emptyInputResult.diagramType = "unknown" ∧
    invalidInputTypeResult.ast = none ∧
    emptyInputResult.ast = none := by
  refine ⟨rfl, ?_, rfl, rfl, rfl, rfl, rfl, rfl⟩
  simp only [validateMermaid]
  rw [if_pos h]

/-- Witness for C3 at a concrete blank input. -/
theorem validateMermaid_input_shape_witness :
    (jsTrim "  ").length = 0 ∧ validateMermaid 1 (some "  ") none = some emptyInputResult :=
  ⟨by decide, (validateMermaid_input_shape 1 none "  " (by decide)).2.1⟩

/-- Claim C4, counterexample: on the input `xychart-beta` the only diagnostic
(MISSING_DATA) sits at line 1, column 1, and no token of the tokenization of
that exact input has line 1, column 1 — so not every diagnostic points at an
existing token. -/
theorem missing_data_position_matches_no_token :
    ((validateMermaid 100 (some "xychart-beta") none).map
      (fun r => r.errors.map (fun e => (e.code, e.line, e.column))) =
      some [("MISSING_DATA", 1, 1)]) ∧
    ((tokenize "xychart-beta").all (fun t => !(t.line == 1 && t.column == 1)) = true) :=
  ⟨rfl, rfl⟩

/-- Claim C4, amended: the MISSING_ARROW diagnostic does point at the position
of a token existing in the tokenization (its synthesized token copies the
second node's token position), shown on `flowchart TD\nA B`; the MISSING_DATA
diagnostic however is emitted at the fixed position (1, 1) for every parser
state, which need not correspond to any token of the input. -/
theorem diagnostic_positions_amended :
    ((validateMermaid 100 (some "flowchart TD\nA B") none).map
      (fun r => r.errors.map (fun e => (e.code, e.line, e.column))) =
      some [("MISSING_ARROW", 2, 4)]) ∧
    ((tokenize "flowchart TD\nA B").any (fun t => t.line == 2 && t.column == 4) = true) ∧
    (∀ s : PState, validateXYChart s [] = { s with errors := s.errors ++ [missingDataDiag] }) ∧
    missingDataDiag.line = 1 ∧ missingDataDiag.column = 1 :=
  ⟨rfl, rfl, fun _ => rfl, rfl, rfl⟩

/-- Claim C6: whenever `parseLinkStyle` runs at a state whose next token is a
number not below the current link counter, it appends exactly the
INVALID_LINKSTYLE_INDEX diagnostic (at the `linkStyle` token's position); and
concretely `flowchart TD\nA[Start] --> B[End]\nlinkStyle 5 stroke:#f00` is
invalid with exactly that single code, since only one link exists. -/
theorem linkStyle_index_out_of_bounds :
    (∀ (fuel : Nat) (s s1 : PState),
      (currentToken (advance s)).type = .NUMBER →
      s.linkCount ≤ toNatD (currentToken (advance s)).value →
      parseLinkStyle fuel s = some s1 →
      s1.errors = s.errors ++
        [linkStyleDiag (currentToken s) (toNatD (currentToken (advance s)).value) s.linkCount]) ∧
    ((validateMermaid 100 (some "flowchart TD\nA[Start] --> B[End]\nlinkStyle 5 stroke:#f00") none).map
      (fun r => (r.isValid, r.errors.map (fun e => e.code))) =
      some (false, ["INVALID_LINKSTYLE_INDEX"])) := by
  refine ⟨?_, rfl⟩
  intro fuel s s1 hnum hle h
  simp only [parseLinkStyle] at h
  rw [if_pos hnum] at h
  have hlc : (advance (advance s)).linkCount = s.linkCount := by
    rw [advance_linkCount, advance_linkCount]
  rw [hlc] at h
  rw [if_pos hle] at h
  have he := skipUntilSemicolon_errors fuel _ _ h
  rw [he]
  simp [advance_errors]

/-- Witness for C6's general part at a concrete state. -/
theorem linkStyle_index_out_of_bounds_witness :
    ∃ s1, parseLinkStyle 5 ⟨tokenize "linkStyle 5", 0, [], 0⟩ = some s1 ∧
      s1.errors = [] ++ [linkStyleDiag (currentToken ⟨tokenize "linkStyle 5", 0, [], 0⟩) 5 0] :=
  ⟨_, rfl, linkStyle_index_out_of_bounds.1 5 ⟨tokenize "linkStyle 5", 0, [], 0⟩ _
    (by decide) (by decide) rfl⟩

theorem connErrorsFrom_pair_mem (l1 : List FlowchartElement) :
    ∀ (prev : FlowchartElement) (la ca : Nat) (ia : String) (laba : Option String) (sha : Shape)
      (cb : Nat) (ib : String) (labb : Option String) (shb : Shape)
      (post : List FlowchartElement),
    missingArrowDiag ia la cb ib ∈
      connErrorsFrom prev
        (l1 ++ FlowchartElement.node la ca ia laba sha ::
          FlowchartElement.node la cb ib labb shb :: post) := by
  induction l1 with
  | nil =>
    intro prev la ca ia laba sha cb ib labb shb post
    simp only [List.nil_append, connErrorsFrom]
    refine List.mem_append_right _ ?_
    refine List.mem_append_left _ ?_
    simp [pairErr]
  | cons x l1 ih =>
    intro prev la ca ia laba sha cb ib labb shb post
    simp only [List.cons_append, connErrorsFrom]
    exact List.mem_append_right _ (ih x la ca ia laba sha cb ib labb shb post)

/-- Claim C7: in the connectivity pass over a flowchart element list (run on
the top-level list and on each subgraph's child list), any two consecutive
node elements on the same source line yield a MISSING_ARROW diagnostic at the
second node's position; and concretely `flowchart TD\nA B` is invalid with
exactly one MISSING_ARROW diagnostic (the parser consumes `TD` as the
direction, leaving A and B adjacent). -/
theorem missing_arrow_adjacent_nodes :
    (∀ (s : PState) (pre post : List FlowchartElement) (la ca : Nat) (ia : String)
      (laba : Option String) (sha : Shape) (cb : Nat) (ib : String) (labb : Option String)
      (shb : Shape),
      missingArrowDiag ia la cb ib ∈
        (validateFlowchartConnections s
          (pre ++ FlowchartElement.node la ca ia laba sha ::
            FlowchartElement.node la cb ib labb shb :: post)).errors) ∧
    ((validateMermaid 100 (some "flowchart TD\nA B") none).map
      (fun r => (r.isValid, r.errors.map (fun e => (e.code, e.line, e.column)))) =
      some (false, [("MISSING_ARROW", 2, 4)])) := by
  refine ⟨?_, rfl⟩
  intro s pre post la ca ia laba sha cb ib labb shb
  unfold validateFlowchartConnections
  refine List.mem_append_right _ ?_
  cases pre with
  | nil =>
    simp only [List.nil_append, connErrors, connErrorsFrom]
    refine List.mem_append_left _ ?_
    simp [pairErr]
  | cons p pre =>
    simp only [List.cons_append, connErrors]
    exact connErrorsFrom_pair_mem pre p la ca ia laba sha cb ib labb shb post

/-- Claim C8, counterexample: the empty string is a target version different
from the validated-against version, yet JavaScript truthiness makes the
version check skip it entirely — no VERSION_MISMATCH diagnostic is appended
and `isValid` stays true. -/
theorem empty_target_version_not_flagged :
    ("" ≠ validatedAgainst) ∧
    ((validateMermaid 100 (some "flowchart TD\nA --> B") (some "")).map
      (fun r => (r.isValid, r.errors.map (fun e => e.code))) = some (true, [])) :=
  ⟨by decide, rfl⟩

/-- Claim C8, amended: for a NON-EMPTY target version different from the
validated-against version, the result on a parse-path input is exactly the
no-target-version result with one VERSION_MISMATCH diagnostic appended and
`isValid` forced to false, `diagramType` and `ast` unchanged; with the target
equal to the validated-against version the result is unchanged. -/
theorem version_mismatch_appends_one_diag (fuel : Nat) (code tv : String)
    (r : ValidationResult) (hb : ¬ (jsTrim code).length = 0) (hne : tv ≠ "")
    (hns : tv ≠ validatedAgainst)
    (h : validateMermaid fuel (some code) none = some r) :
    validateMermaid fuel (some code) (some tv) =
      some ⟨false, r.diagramType, r.errors ++ [versionMismatchDiag tv], r.ast⟩ ∧
    validateMermaid fuel (some code) (some validatedAgainst) = some r := by
  simp only [validateMermaid] at h ⊢
  rw [if_neg hb] at h
  rw [optBind_eq_some] at h
  obtain ⟨result, hp, hpure⟩ := h
  simp only [Option.pure_def, Option.some.injEq] at hpure
  subst hpure
  constructor
  · rw [if_neg hb, optBind_eq_some]
    refine ⟨result, hp, ?_⟩
    rw [if_pos ⟨hne, by simp [isMermaidVersionSupported, hns]⟩]
    cases result
    rfl
  · rw [if_neg hb, optBind_eq_some]
    refine ⟨result, hp, ?_⟩
    rw [if_neg ?_]
    · rfl
    · simp [isMermaidVersionSupported]

/-- Witness for C8's amended claim at a concrete input and version. -/
theorem version_mismatch_appends_one_diag_witness :
    validateMermaid 100 (some "pie") (some "9.9.9") =
      some ⟨false, "pie", [] ++ [versionMismatchDiag "9.9.9"], some (Ast.plain "pie" 1 4)⟩ ∧
    validateMermaid 100 (some "pie") (some validatedAgainst) =
      some ⟨true, "pie", [], some (Ast.plain "pie" 1 4)⟩ :=
  version_mismatch_appends_one_diag 100 "pie" "9.9.9"
    ⟨true, "pie", [], some (Ast.plain "pie" 1 4)⟩
    (by decide) (by decide) (by decide) rfl

theorem xAxisItems_stuck5 :
    ∀ (n : Nat) (acc : List String),
      xAxisItems n ⟨unclosedXAxisTokens, 5, [], 0⟩ acc = none := by
  intro n
  induction n with
  | zero => intro acc; rfl
  | succ m ih => intro acc; exact ih acc

theorem xAxisItems_stuck4 :
    ∀ (n : Nat) (acc : List String),
      xAxisItems n ⟨unclosedXAxisTokens, 4, [], 0⟩ acc = none := by
  intro n acc
  match n with
  | 0 => rfl
  | m + 1 => exact xAxisItems_stuck5 m acc

theorem xAxisItems_stuck3 :
    ∀ (n : Nat) (acc : List String),
      xAxisItems n ⟨unclosedXAxisTokens, 3, [], 0⟩ acc = none := by
  intro n acc
  match n with
  | 0 => rfl
  | m + 1 => exact xAxisItems_stuck4 m (acc ++ ["a"])

theorem xyMain_unclosed :
    ∀ (n : Nat) (t : Option String) (x : List String) (y : Option YAxisData)
      (d : List SeriesData),
      xyMain n ⟨unclosedXAxisTokens, 1, [], 0⟩ t x y d = none := by
  intro n t x y d
  match n with
  | 0 => rfl
  | m + 1 =>
    show (xAxisItems m ⟨unclosedXAxisTokens, 3, [], 0⟩ x).bind _ = none
    rw [xAxisItems_stuck3]
    rfl

theorem parseDiagram_unclosed :
    ∀ (n : Nat), parseDiagram n ⟨unclosedXAxisTokens, 0, [], 0⟩ = none := by
  intro n
  match n with
  | 0 => rfl
  | m + 1 =>
    show (xyMain (m + 1) ⟨unclosedXAxisTokens, 1, [], 0⟩ none [] none []).bind _ = none
    rw [xyMain_unclosed]
    rfl

theorem parse_unclosed : ∀ (fuel : Nat), parse fuel unclosedXAxisTokens = none := by
  intro fuel
  show (parseDiagram fuel ⟨unclosedXAxisTokens, 0, [], 0⟩).bind _ = none
  rw [parseDiagram_unclosed]
  rfl

theorem ite_advance_errors (c : Prop) [Decidable c] (x : PState) :
    (if c then advance x else x).errors = x.errors := by
  split
  · exact advance_errors x
  · rfl

theorem parseClassDef_errors_ext (fuel : Nat) (s s1 : PState)
    (h : parseClassDef fuel s = some s1) : ∃ t, s1.errors = s.errors ++ t := by
  simp only [parseClassDef] at h
  split at h
  · refine ⟨[⟨(currentToken s).line, (currentToken s).column,
      "classDef with equals syntax is not supported in flowcharts",
      "UNSUPPORTED_CLASSDEF_EQUALS_SYNTAX",
      some "Use colon syntax instead (e.g., fill:#f9f instead of fill=lightblue)"⟩], ?_⟩
    rw [skipUntilSemicolon_errors fuel _ _ h]
    simp [addError, advance_errors]
  · refine ⟨[], ?_⟩
    rw [skipUntilSemicolon_errors fuel _ _ h, advance_errors]
    simp

theorem parseClassAssignment_errors (fuel : Nat) (s s1 : PState)
    (h : parseClassAssignment fuel s = some s1) : s1.errors = s.errors := by
  simp only [parseClassAssignment] at h
  rw [skipUntilSemicolon_errors fuel _ _ h, ite_advance_errors, ite_advance_errors,
    advance_errors]

theorem classLoop_errors_ext :
    ∀ (fuel : Nat) (s s1 : PState), classLoop fuel s = some s1 →
      ∃ t, s1.errors = s.errors ++ t := by
  intro fuel
  induction fuel with
  | zero => intro s s1 h; cases h
  | succ n ih =>
    intro s s1 h
    simp only [classLoop] at h
    split at h
    · split at h
      · obtain ⟨t, ht⟩ := ih _ _ h
        exact ⟨t, by rw [ht, advance_errors]⟩
      · split at h
        · rw [optBind_eq_some] at h
          obtain ⟨s2, hcd, h⟩ := h
          obtain ⟨t1, ht1⟩ := parseClassDef_errors_ext n s s2 hcd
          obtain ⟨t2, ht2⟩ := ih _ _ h
          exact ⟨t1 ++ t2, by rw [ht2, ht1, List.append_assoc]⟩
        · split at h
          · obtain ⟨t, ht⟩ := ih _ _ h
            exact ⟨t, by rw [ht, ite_advance_errors, ite_advance_errors, advance_errors]⟩
          · split at h
            · rw [optBind_eq_some] at h
              obtain ⟨s2, hsk, h⟩ := h
              obtain ⟨t2, ht2⟩ := ih _ _ h
              refine ⟨stylingDiag (currentToken s) " directive is not supported in class diagrams"
                "Only classDef and class directives are supported in class diagrams" :: t2, ?_⟩
              rw [ht2, skipUntilSemicolon_errors n _ _ hsk]
              simp [addError, stylingDiag]
            · split at h
              · obtain ⟨t, ht⟩ := ih _ _ h
                refine ⟨⟨(currentToken s).line, (currentToken s).column,
                  "Double-parentheses syntax ((text)) is not supported in class diagrams",
                  "UNSUPPORTED_NODE_SHAPE", some "Use standard class syntax instead"⟩ :: t, ?_⟩
                rw [ht, advance_errors]
                simp [addError]
              · obtain ⟨t, ht⟩ := ih _ _ h
                exact ⟨t, by rw [ht, advance_errors]⟩
    · simp only [Option.some.injEq] at h
      subst h
      exact ⟨[], by simp⟩

theorem stateLoop_errors_ext :
    ∀ (fuel : Nat) (s s1 : PState), stateLoop fuel s = some s1 →
      ∃ t, s1.errors = s.errors ++ t := by
  intro fuel
  induction fuel with
  | zero => intro s s1 h; cases h
  | succ n ih =>
    intro s s1 h
    simp only [stateLoop] at h
    split at h
    · split at h
      · obtain ⟨t, ht⟩ := ih _ _ h
        exact ⟨t, by rw [ht, advance_errors]⟩
      · split at h
        · rw [optBind_eq_some] at h
          obtain ⟨s2, hcd, h⟩ := h
          obtain ⟨t1, ht1⟩ := parseClassDef_errors_ext n s s2 hcd
          obtain ⟨t2, ht2⟩ := ih _ _ h
          exact ⟨t1 ++ t2, by rw [ht2, ht1, List.append_assoc]⟩
        · split at h
          · rw [optBind_eq_some] at h
            obtain ⟨s2, hca, h⟩ := h
            obtain ⟨t, ht⟩ := ih _ _ h
            exact ⟨t, by rw [ht, parseClassAssignment_errors n _ _ hca]⟩
          · split at h
            · rw [optBind_eq_some] at h
              obtain ⟨s2, hsk, h⟩ := h
              obtain ⟨t2, ht2⟩ := ih _ _ h
              refine ⟨stylingDiag (currentToken s) " directive is not supported in state diagrams"
                "Only classDef and class directives are supported in state diagrams" :: t2, ?_⟩
              rw [ht2, skipUntilSemicolon_errors n _ _ hsk]
              simp [addError, stylingDiag]
            · obtain ⟨t, ht⟩ := ih _ _ h
              exact ⟨t, by rw [ht, advance_errors]⟩
    · simp only [Option.some.injEq] at h
      subst h
      exact ⟨[], by simp⟩

theorem msgCollect_errors :
    ∀ (fuel : Nat) (s : PState) (startLine : Nat) (acc : List String)
      (out : List String × PState),
      msgCollect fuel s startLine acc = some out → out.2.errors = s.errors := by
  intro fuel
  induction fuel with
  | zero => intro s sl acc out h; cases h
  | succ n ih =>
    intro s sl acc out h
    simp only [msgCollect] at h
    split at h
    · split at h
      · exact (ih _ _ _ _ h).trans (advance_errors s)
      · split at h
        · exact (ih _ _ _ _ h).trans (advance_errors s)
        · exact (ih _ _ _ _ h).trans (advance_errors s)
    · simp only [Option.some.injEq] at h
      subst h
      rfl

theorem parseParticipant_errors_ext (s : PState) :
    ∃ t, (parseParticipant s).2.errors = s.errors ++ t := by
  by_cases h1 : (currentToken (advance s)).type = .EOF ∨ isAtEnd (advance s) ∨
      ((currentToken (advance s)).type ≠ .IDENTIFIER ∧
        (currentToken (advance s)).type ≠ .STRING)
  · refine ⟨[⟨(currentToken s).line, (currentToken s).column,
      "Participant declaration must have a name", "MISSING_PARTICIPANT_NAME",
      some "Add a participant name after the participant keyword"⟩], ?_⟩
    simp only [parseParticipant]
    rw [if_pos h1]
    simp [addError, advance_errors]
  · simp only [parseParticipant]
    rw [if_neg h1]
    by_cases h2 : (currentToken (advance (advance s))).type = .IDENTIFIER ∧
        (currentToken (advance (advance s))).value = "as"
    · rw [if_pos h2]
      by_cases h3 : (currentToken (advance (advance (advance s)))).type = .IDENTIFIER ∨
          (currentToken (advance (advance (advance s)))).type = .STRING
      · rw [if_pos h3]
        exact ⟨[], by simp [advance_errors]⟩
      · rw [if_neg h3]
        exact ⟨[], by simp [advance_errors]⟩
    · rw [if_neg h2]
      exact ⟨[], by simp [advance_errors]⟩

theorem parseMessageLine_errors_ext (fuel : Nat) (s : PState) (m : MessageNode) (s1 : PState)
    (h : parseMessageLine fuel s = some (m, s1)) : ∃ t, s1.errors = s.errors ++ t := by
  simp only [parseMessageLine] at h
  split at h
  all_goals split at h
  all_goals first
    | (simp only [Option.some.injEq, Prod.mk.injEq] at h
       obtain ⟨_, hs⟩ := h
       subst hs
       exact ⟨[⟨(currentToken (advance s)).line, (currentToken (advance s)).column,
         "Incomplete message: arrow must have a destination participant",
         "INCOMPLETE_MESSAGE", some "Add a destination participant after the arrow"⟩],
         by simp [addError, advance_errors]⟩)
    | (rw [optBind_eq_some] at h
       obtain ⟨⟨parts, s5⟩, hmc, hpure⟩ := h
       simp only [Option.pure_def, Option.some.injEq, Prod.mk.injEq] at hpure
       obtain ⟨_, hs⟩ := hpure
       subst hs
       refine ⟨[], ?_⟩
       rw [msgCollect_errors _ _ _ _ _ hmc]
       simp [ite_advance_errors, advance_errors])

theorem seqLoop_errors_ext :
    ∀ (fuel : Nat) (s : PState) (ps : List ParticipantNode) (ms : List MessageNode)
      (out : List ParticipantNode × List MessageNode × PState),
      seqLoop fuel s ps ms = some out → ∃ t, out.2.2.errors = s.errors ++ t := by
  intro fuel
  induction fuel with
  | zero => intro s ps ms out h; cases h
  | succ n ih =>
    intro s ps ms out h
    simp only [seqLoop] at h
    split at h
    · split at h
      · obtain ⟨t1, ht1⟩ := parseParticipant_errors_ext s
        obtain ⟨t2, ht2⟩ := ih _ _ _ _ h
        exact ⟨t1 ++ t2, by rw [ht2, ht1, List.append_assoc]⟩
      · split at h
        · obtain ⟨t, ht⟩ := ih _ _ _ _ h
          exact ⟨t, by rw [ht, advance_errors]⟩
        · split at h
          · rw [optBind_eq_some] at h
            obtain ⟨s2, hsk, h⟩ := h
            obtain ⟨t2, ht2⟩ := ih _ _ _ _ h
            refine ⟨stylingDiag (currentToken s) " directive is not supported in sequence diagrams"
              "Styling directives are not supported in sequence diagrams" :: t2, ?_⟩
            rw [ht2, skipUntilSemicolon_errors n _ _ hsk]
            simp [addError, stylingDiag]
          · split at h
            · split at h
              · split at h
                · rw [optBind_eq_some] at h
                  obtain ⟨⟨m0, s2⟩, hml, h⟩ := h
                  obtain ⟨t1, ht1⟩ := parseMessageLine_errors_ext n s m0 s2 hml
                  obtain ⟨t2, ht2⟩ := ih _ _ _ _ h
                  exact ⟨t1 ++ t2, by rw [ht2, ht1, List.append_assoc]⟩
                · obtain ⟨t, ht⟩ := ih _ _ _ _ h
                  exact ⟨t, by rw [ht, advance_errors]⟩
              · obtain ⟨t, ht⟩ := ih _ _ _ _ h
                exact ⟨t, by rw [ht, advance_errors]⟩
            · obtain ⟨t, ht⟩ := ih _ _ _ _ h
              exact ⟨t, by rw [ht, advance_errors]⟩
    · simp only [Option.some.injEq] at h
      subst h
      exact ⟨[], by simp⟩

theorem seqLoop_styling (fuel : Nat) (s : PState) (ps : List ParticipantNode)
    (ms : List MessageNode) (out : List ParticipantNode × List MessageNode × PState)
    (hg : ¬ isAtEnd s) (hg2 : (currentToken s).type ≠ .EOF)
    (hp : (currentToken s).type ≠ .PARTICIPANT) (hd : (currentToken s).type ≠ .DIRECTIVE)
    (hv : (currentToken s).value = "classDef" ∨ (currentToken s).value = "class" ∨
      (currentToken s).value = "linkStyle" ∨ (currentToken s).value = "style" ∨
      (currentToken s).value = "click" ∨ (currentToken s).value = "note")
    (h : seqLoop fuel s ps ms = some out) :
    stylingDiag (currentToken s) " directive is not supported in sequence diagrams"
      "Styling directives are not supported in sequence diagrams" ∈ out.2.2.errors := by
  match fuel with
  | 0 => cases h
  | n + 1 =>
    simp only [seqLoop] at h
    rw [if_pos ⟨hg, hg2⟩, if_neg hp, if_neg hd, if_pos hv, optBind_eq_some] at h
    obtain ⟨s2, hsk, h⟩ := h
    obtain ⟨t, ht⟩ := seqLoop_errors_ext n _ _ _ _ h
    rw [ht, skipUntilSemicolon_errors n _ _ hsk]
    simp [addError, stylingDiag]

theorem classLoop_styling (fuel : Nat) (s : PState) (s1 : PState)
    (hg : ¬ isAtEnd s) (hg2 : (currentToken s).type ≠ .EOF)
    (hd : (currentToken s).type ≠ .DIRECTIVE)
    (hv : (currentToken s).value = "linkStyle" ∨ (currentToken s).value = "style" ∨
      (currentToken s).value = "click" ∨ (currentToken s).value = "note")
    (h : classLoop fuel s = some s1) :
    stylingDiag (currentToken s) " directive is not supported in class diagrams"
      "Only classDef and class directives are supported in class diagrams" ∈ s1.errors := by
  match fuel with
  | 0 => cases h
  | n + 1 =>
    have hne1 : (currentToken s).value ≠ "classDef" := by
      rcases hv with h1 | h1 | h1 | h1 <;> rw [h1] <;> decide
    have hne2 : (currentToken s).value ≠ "class" := by
      rcases hv with h1 | h1 | h1 | h1 <;> rw [h1] <;> decide
    simp only [classLoop] at h
    rw [if_pos ⟨hg, hg2⟩, if_neg hd, if_neg hne1, if_neg hne2, if_pos hv,
      optBind_eq_some] at h
    obtain ⟨s2, hsk, h⟩ := h
    obtain ⟨t, ht⟩ := classLoop_errors_ext n _ _ h
    rw [ht, skipUntilSemicolon_errors n _ _ hsk]
    simp [addError, stylingDiag]

theorem stateLoop_styling (fuel : Nat) (s : PState) (s1 : PState)
    (hg : ¬ isAtEnd s) (hg2 : (currentToken s).type ≠ .EOF)
    (hd : (currentToken s).type ≠ .DIRECTIVE)
    (hv : (currentToken s).value = "linkStyle" ∨ (currentToken s).value = "style" ∨
      (currentToken s).value = "click" ∨ (currentToken s).value = "note")
    (h : stateLoop fuel s = some s1) :
    stylingDiag (currentToken s) " directive is not supported in state diagrams"
      "Only classDef and class directives are supported in state diagrams" ∈ s1.errors := by
  match fuel with
  | 0 => cases h
  | n + 1 =>
    have hne1 : (currentToken s).value ≠ "classDef" := by
      rcases hv with h1 | h1 | h1 | h1 <;> rw [h1] <;> decide
    have hne2 : (currentToken s).value ≠ "class" := by
      rcases hv with h1 | h1 | h1 | h1 <;> rw [h1] <;> decide
    simp only [stateLoop] at h
    rw [if_pos ⟨hg, hg2⟩, if_neg hd, if_neg hne1, if_neg hne2, if_pos hv,
      optBind_eq_some] at h
    obtain ⟨s2, hsk, h⟩ := h
    obtain ⟨t, ht⟩ := stateLoop_errors_ext n _ _ h
    rw [ht, skipUntilSemicolon_errors n _ _ hsk]
    simp [addError, stylingDiag]

theorem parsePieChart_errors (fuel : Nat) (s : PState) (a : Ast) (s1 : PState)
    (h : parsePieChart fuel s = some (a, s1)) : s1.errors = s.errors := by
  simp only [parsePieChart] at h
  rw [optBind_eq_some] at h
  obtain ⟨s2, hc, h2⟩ := h
  simp only [Option.pure_def, Option.some.injEq, Prod.mk.injEq] at h2
  obtain ⟨_, hs⟩ := h2
  subst hs
  exact (consumeAll_errors _ _ _ hc).trans (advance_errors s)

theorem parseJourney_errors (fuel : Nat) (s : PState) (a : Ast) (s1 : PState)
    (h : parseJourney fuel s = some (a, s1)) : s1.errors = s.errors := by
  simp only [parseJourney] at h
  rw [optBind_eq_some] at h
  obtain ⟨s2, hc, h2⟩ := h
  simp only [Option.pure_def, Option.some.injEq, Prod.mk.injEq] at h2
  obtain ⟨_, hs⟩ := h2
  subst hs
  exact (consumeAll_errors _ _ _ hc).trans (advance_errors s)

theorem parseGitgraph_errors (fuel : Nat) (s : PState) (a : Ast) (s1 : PState)
    (h : parseGitgraph fuel s = some (a, s1)) : s1.errors = s.errors := by
  simp only [parseGitgraph] at h
  rw [optBind_eq_some] at h
  obtain ⟨s2, hc, h2⟩ := h
  simp only [Option.pure_def, Option.some.injEq, Prod.mk.injEq] at h2
  obtain ⟨_, hs⟩ := h2
  subst hs
  exact (consumeAll_errors _ _ _ hc).trans (advance_errors s)

theorem parseMindmap_errors (fuel : Nat) (s : PState) (a : Ast) (s1 : PState)
    (h : parseMindmap fuel s = some (a, s1)) : s1.errors = s.errors := by
  simp only [parseMindmap] at h
  rw [optBind_eq_some] at h
  obtain ⟨s2, hc, h2⟩ := h
  simp only [Option.pure_def, Option.some.injEq, Prod.mk.injEq] at h2
  obtain ⟨_, hs⟩ := h2
  subst hs
  exact (consumeAll_errors _ _ _ hc).trans (advance_errors s)

theorem parseTimeline_errors (fuel : Nat) (s : PState) (a : Ast) (s1 : PState)
    (h : parseTimeline fuel s = some (a, s1)) : s1.errors = s.errors := by
  simp only [parseTimeline] at h
  rw [optBind_eq_some] at h
  obtain ⟨s2, hc, h2⟩ := h
  simp only [Option.pure_def, Option.some.injEq, Prod.mk.injEq] at h2
  obtain ⟨_, hs⟩ := h2
  subst hs
  exact (consumeAll_errors _ _ _ hc).trans (advance_errors s)

theorem parseGantt_errors (fuel : Nat) (s : PState) (a : Ast) (s1 : PState)
    (h : parseGantt fuel s = some (a, s1)) : s1.errors = s.errors := by
  simp only [parseGantt] at h
  rw [optBind_eq_some] at h
  obtain ⟨s2, hc, h2⟩ := h
  simp only [Option.pure_def, Option.some.injEq, Prod.mk.injEq] at h2
  obtain ⟨_, hs⟩ := h2
  subst hs
  exact (consumeAll_errors _ _ _ hc).trans (advance_errors s)

theorem parseERDiagram_errors (fuel : Nat) (s : PState) (a : Ast) (s1 : PState)
    (h : parseERDiagram fuel s = some (a, s1)) : s1.errors = s.errors := by
  simp only [parseERDiagram] at h
  rw [optBind_eq_some] at h
  obtain ⟨s2, hc, h2⟩ := h
  simp only [Option.pure_def, Option.some.injEq, Prod.mk.injEq] at h2
  obtain ⟨_, hs⟩ := h2
  subst hs
  exact (consumeAll_errors _ _ _ hc).trans (advance_errors s)

/-- Claim C5, counterexample: in the pie grammar a `style` statement yields NO
diagnostic at all — `pie\nstyle a fill:red` validates with `isValid = true`
and an empty diagnostics list, contradicting the claimed
UNSUPPORTED_STYLING_DIRECTIVE rejection for every non-flowchart grammar. -/
theorem pie_style_accepted_without_diagnostic :
    (validateMermaid 100 (some "pie\nstyle a fill:red") none).map
      (fun r => (r.isValid, r.errors)) = some (true, []) := rfl

/-- Claim C5, amended: the statement-position rejection of styling directives
holds in the sequence grammar (`classDef`/`class`/`linkStyle`/`style`/
`click`/`note`) and in the class and state grammars (`linkStyle`/`style`/
`click`/`note`, with `classDef`/`class` legal there), each statement being
skipped to its terminator; but the header-only grammars (pie, journey,
gitgraph, mindmap, timeline, gantt, er) consume their body without any
directive check and never produce any diagnostic. -/
theorem styling_directive_legality_amended :
    (∀ (fuel : Nat) (s : PState) (ps : List ParticipantNode) (ms : List MessageNode)
      (out : List ParticipantNode × List MessageNode × PState),
      ¬ isAtEnd s → (currentToken s).type ≠ .EOF → (currentToken s).type ≠ .PARTICIPANT →
      (currentToken s).type ≠ .DIRECTIVE →
      ((currentToken s).value = "classDef" ∨ (currentToken s).value = "class" ∨
        (currentToken s).value = "linkStyle" ∨ (currentToken s).value = "style" ∨
        (currentToken s).value = "click" ∨ (currentToken s).value = "note") →
      seqLoop fuel s ps ms = some out →
      stylingDiag (currentToken s) " directive is not supported in sequence diagrams"
        "Styling directives are not supported in sequence diagrams" ∈ out.2.2.errors) ∧
    (∀ (fuel : Nat) (s s1 : PState),
      ¬ isAtEnd s → (currentToken s).type ≠ .EOF → (currentToken s).type ≠ .DIRECTIVE →
      ((currentToken s).value = "linkStyle" ∨ (currentToken s).value = "style" ∨
        (currentToken s).value = "click" ∨ (currentToken s).value = "note") →
      classLoop fuel s = some s1 →
      stylingDiag (currentToken s) " directive is not supported in class diagrams"
        "Only classDef and class directives are supported in class diagrams" ∈ s1.errors) ∧
    (∀ (fuel : Nat) (s s1 : PState),
      ¬ isAtEnd s → (currentToken s).type ≠ .EOF → (currentToken s).type ≠ .DIRECTIVE →
      ((currentToken s).value = "linkStyle" ∨ (currentToken s).value = "style" ∨
        (currentToken s).value = "click" ∨ (currentToken s).value = "note") →
      stateLoop fuel s = some s1 →
      stylingDiag (currentToken s) " directive is not supported in state diagrams"
        "Only classDef and class directives are supported in state diagrams" ∈ s1.errors) ∧
    (∀ (fuel : Nat) (s : PState) (a : Ast) (s1 : PState),
      parsePieChart fuel s = some (a, s1) → s1.errors = s.errors) ∧
    (∀ (fuel : Nat) (s : PState) (a : Ast) (s1 : PState),
      parseJourney fuel s = some (a, s1) → s1.errors = s.errors) ∧
    (∀ (fuel : Nat) (s : PState) (a : Ast) (s1 : PState),
      parseGitgraph fuel s = some (a, s1) → s1.errors = s.errors) ∧
    (∀ (fuel : Nat) (s : PState) (a : Ast) (s1 : PState),
      parseMindmap fuel s = some (a, s1) → s1.errors = s.errors) ∧
    (∀ (fuel : Nat) (s : PState) (a : Ast) (s1 : PState),
      parseTimeline fuel s = some (a, s1) → s1.errors = s.errors) ∧
    (∀ (fuel : Nat) (s : PState) (a : Ast) (s1 : PState),
      parseGantt fuel s = some (a, s1) → s1.errors = s.errors) ∧
    (∀ (fuel : Nat) (s : PState) (a : Ast) (s1 : PState),
      parseERDiagram fuel s = some (a, s1) → s1.errors = s.errors) :=
  ⟨fun fuel s ps ms out hg hg2 hp hd hv h => seqLoop_styling fuel s ps ms out hg hg2 hp hd hv h,
   fun fuel s s1 hg hg2 hd hv h => classLoop_styling fuel s s1 hg hg2 hd hv h,
   fun fuel s s1 hg hg2 hd hv h => stateLoop_styling fuel s s1 hg hg2 hd hv h,
   fun fuel s a s1 h => parsePieChart_errors fuel s a s1 h,
   fun fuel s a s1 h => parseJourney_errors fuel s a s1 h,
   fun fuel s a s1 h => parseGitgraph_errors fuel s a s1 h,
   fun fuel s a s1 h => parseMindmap_errors fuel s a s1 h,
   fun fuel s a s1 h => parseTimeline_errors fuel s a s1 h,
   fun fuel s a s1 h => parseGantt_errors fuel s a s1 h,
   fun fuel s a s1 h => parseERDiagram_errors fuel s a s1 h⟩

/-- Witness for C5's amended claim: the sequence-grammar rejection at a
concrete state, and the pie grammar adding no diagnostic on a concrete run. -/
theorem styling_directive_legality_amended_witness :
    (∃ out, seqLoop 10 ⟨tokenize "style a", 0, [], 0⟩ [] [] = some out ∧
      stylingDiag (currentToken ⟨tokenize "style a", 0, [], 0⟩) " directive is not supported in sequence diagrams"
        "Styling directives are not supported in sequence diagrams" ∈ out.2.2.errors) ∧
    (∃ a s1, parsePieChart 10 ⟨tokenize "pie", 0, [], 0⟩ = some (a, s1) ∧ s1.errors = []) :=
  ⟨⟨_, rfl, styling_directive_legality_amended.1 10 ⟨tokenize "style a", 0, [], 0⟩ [] [] _
      (by decide) (by decide) (by decide) (by decide) (by decide) rfl⟩,
   ⟨_, _, rfl, styling_directive_legality_amended.2.2.2.1 10 ⟨tokenize "pie", 0, [], 0⟩ _ _ rfl⟩⟩

/-- Claim C9: wherever the lexer starts a token at a position where the
4-character sequence `==>>` occurs, it emits a bare EQUALS token for the first
character only (the remainder is tokenized separately from the next position);
`==>` not followed by another `>` (next character different, or end of input)
is emitted as the single THICK_ARROW token `==>`. In particular no single
token for `==>>` is ever produced. -/
theorem tokenizer_degrades_double_thick_arrow :
    (∀ (rest : List Char) (pos line col : Nat) (r4 : List Char),
      rest = '=' :: '=' :: '>' :: '>' :: r4 →
      nextTokenAux rest pos line col =
        (some ⟨.EQUALS, "=", line, col, pos⟩,
         ⟨'=' :: '>' :: '>' :: r4, pos + 1, line, col + 1⟩)) ∧
    (∀ (rest : List Char) (pos line col : Nat) (r3 : List Char),
      rest = '=' :: '=' :: '>' :: r3 → r3.head? ≠ some '>' →
      nextTokenAux rest pos line col =
        (some ⟨.THICK_ARROW, "==>", line, col + 1, pos⟩, ⟨r3, pos + 3, line, col + 3⟩)) := by
  constructor
  · intro rest pos line col r4 h
    subst h
    rfl
  · intro rest pos line col r3 h hne
    subst h
    cases r3 with
    | nil => rfl
    | cons c t =>
      have hc : c ≠ '>' := by
        intro hh
        subst hh
        exact hne rfl
      show readEqualsBlock ('=' :: '>' :: c :: t) pos line col = _
      simp only [readEqualsBlock]
      split
      · rename_i heq
        simp at heq
        exact absurd heq.1 hc
      · rename_i r0 rest3 hx heq
        simp at heq
        subst heq
        rfl
      · rename_i hx1 hx2
        exact absurd rfl (hx2 (c :: t))

/-- Witness for C9 at concrete lexer states. -/
theorem tokenizer_degrades_double_thick_arrow_witness :
    nextTokenAux ['=', '=', '>', '>', 'a'] 0 1 1 =
      (some ⟨.EQUALS, "=", 1, 1, 0⟩, ⟨['=', '>', '>', 'a'], 1, 1, 2⟩) ∧
    nextTokenAux ['=', '=', '>', 'a'] 0 1 1 =
      (some ⟨.THICK_ARROW, "==>", 1, 2, 0⟩, ⟨['a'], 3, 1, 4⟩) :=
  ⟨tokenizer_degrades_double_thick_arrow.1 _ 0 1 1 ['a'] rfl,
   tokenizer_degrades_double_thick_arrow.2 _ 0 1 1 ['a'] rfl (by decide)⟩

theorem arrowTypeOf_not_thick (v : String) :
    arrowTypeOf v = .solid ∨ arrowTypeOf v = .dotted := by
  unfold arrowTypeOf
  repeat' split
  all_goals simp

theorem parseMessageLine_arrowType (fuel : Nat) (s : PState) (m : MessageNode) (s1 : PState)
    (h : parseMessageLine fuel s = some (m, s1)) :
    m.arrowType = .solid ∨ m.arrowType = .dotted := by
  simp only [parseMessageLine] at h
  split at h
  all_goals split at h
  all_goals first
    | (simp only [Option.some.injEq, Prod.mk.injEq] at h
       obtain ⟨hm, _⟩ := h
       subst hm
       first
         | exact arrowTypeOf_not_thick _
         | exact Or.inl rfl)
    | (rw [optBind_eq_some] at h
       obtain ⟨⟨parts, s5⟩, _, hpure⟩ := h
       simp only [Option.pure_def, Option.some.injEq, Prod.mk.injEq] at hpure
       obtain ⟨hm, _⟩ := hpure
       subst hm
       first
         | exact arrowTypeOf_not_thick _
         | exact Or.inl rfl)

theorem seqLoop_msgs :
    ∀ (fuel : Nat) (s : PState) (ps : List ParticipantNode) (ms : List MessageNode)
      (out : List ParticipantNode × List MessageNode × PState),
      seqLoop fuel s ps ms = some out →
      (∀ m ∈ ms, m.arrowType = .solid ∨ m.arrowType = .dotted) →
      ∀ m ∈ out.2.1, m.arrowType = .solid ∨ m.arrowType = .dotted := by
  intro fuel
  induction fuel with
  | zero => intro s ps ms out h; cases h
  | succ n ih =>
    intro s ps ms out h hms
    simp only [seqLoop] at h
    split at h
    · split at h
      · exact ih _ _ _ _ h hms
      · split at h
        · exact ih _ _ _ _ h hms
        · split at h
          · rw [optBind_eq_some] at h
            obtain ⟨s2, _, h⟩ := h
            exact ih _ _ _ _ h hms
          · split at h
            · split at h
              · split at h
                · rw [optBind_eq_some] at h
                  obtain ⟨⟨m0, s2⟩, hml, h⟩ := h
                  refine ih _ _ _ _ h ?_
                  intro m hm
                  rcases List.mem_append.mp hm with hmem | hmem
                  · exact hms m hmem
                  · rw [List.mem_singleton.mp hmem]
                    exact parseMessageLine_arrowType n s m0 s2 hml
                · exact ih _ _ _ _ h hms
              · exact ih _ _ _ _ h hms
            · exact ih _ _ _ _ h hms
    · simp only [Option.some.injEq] at h
      subst h
      exact hms

theorem parseSequenceDiagram_msgs (fuel : Nat) (s : PState) (a : Ast) (s1 : PState)
    (h : parseSequenceDiagram fuel s = some (a, s1))
    (l c : Nat) (ps : List ParticipantNode) (ms : List MessageNode)
    (ha : a = Ast.sequence l c ps ms) :
    ∀ m ∈ ms, m.arrowType = .solid ∨ m.arrowType = .dotted := by
  simp only [parseSequenceDiagram] at h
  rw [optBind_eq_some] at h
  obtain ⟨⟨ps2, ms2, s2⟩, hsl, hpure⟩ := h
  simp only [Option.pure_def, Option.some.injEq, Prod.mk.injEq] at hpure
  obtain ⟨ha2, _⟩ := hpure
  rw [ha] at ha2
  have hms : ms2 = ms := by
    cases ha2
    rfl
  subst hms
  exact seqLoop_msgs fuel _ [] [] _ hsl (by intro m hm; cases hm)

theorem parseDiagram_seq_msgs (fuel : Nat) (s : PState) (a : Ast) (s1 : PState)
    (h : parseDiagram fuel s = some (a, s1))
    (l c : Nat) (ps : List ParticipantNode) (ms : List MessageNode)
    (ha : a = Ast.sequence l c ps ms) :
    ∀ m ∈ ms, m.arrowType = .solid ∨ m.arrowType = .dotted := by
  unfold parseDiagram at h
  rw [optBind_eq_some] at h
  obtain ⟨s0, _, h⟩ := h
  by_cases hc1 : (currentToken s0).type = .GRAPH ∨ (currentToken s0).type = .FLOWCHART
  · rw [if_pos hc1] at h
    simp only [parseFlowchart] at h
    rw [optBind_eq_some] at h
    obtain ⟨⟨nodes, s3⟩, _, h2⟩ := h
    simp only [Option.pure_def, Option.some.injEq, Prod.mk.injEq] at h2
    rw [ha] at h2
    exact Ast.noConfusion h2.1
  · rw [if_neg hc1] at h
    by_cases hc2 : (currentToken s0).type = .SEQUENCE_DIAGRAM
    · rw [if_pos hc2] at h
      exact parseSequenceDiagram_msgs fuel s0 a s1 h l c ps ms ha
    · rw [if_neg hc2] at h
      by_cases hc3 : (currentToken s0).type = .CLASS_DIAGRAM
      · rw [if_pos hc3] at h
        simp only [parseClassDiagram] at h
        rw [optBind_eq_some] at h
        obtain ⟨s2, _, h2⟩ := h
        simp only [Option.pure_def, Option.some.injEq, Prod.mk.injEq] at h2
        rw [ha] at h2
        exact Ast.noConfusion h2.1
      · rw [if_neg hc3] at h
        by_cases hc4 : (currentToken s0).type = .STATE_DIAGRAM ∨ (currentToken s0).type = .STATE_DIAGRAM_V2
        · rw [if_pos hc4] at h
          simp only [parseStateDiagram] at h
          rw [optBind_eq_some] at h
          obtain ⟨s2, _, h2⟩ := h
          simp only [Option.pure_def, Option.some.injEq, Prod.mk.injEq] at h2
          rw [ha] at h2
          exact Ast.noConfusion h2.1
        · rw [if_neg hc4] at h
          by_cases hc5 : (currentToken s0).type = .PIE
          · rw [if_pos hc5] at h
            simp only [parsePieChart] at h
            rw [optBind_eq_some] at h
            obtain ⟨s2, _, h2⟩ := h
            simp only [Option.pure_def, Option.some.injEq, Prod.mk.injEq] at h2
            rw [ha] at h2
            exact Ast.noConfusion h2.1
          · rw [if_neg hc5] at h
            by_cases hc6 : (currentToken s0).type = .JOURNEY
            · rw [if_pos hc6] at h
              simp only [parseJourney] at h
              rw [optBind_eq_some] at h
              obtain ⟨s2, _, h2⟩ := h
              simp only [Option.pure_def, Option.some.injEq, Prod.mk.injEq] at h2
              rw [ha] at h2
              exact Ast.noConfusion h2.1
            · rw [if_neg hc6] at h
              by_cases hc7 : (currentToken s0).type = .XYCHART_BETA
              · rw [if_pos hc7] at h
                simp only [parseXYChart] at h
                rw [optBind_eq_some] at h
                obtain ⟨⟨t0, x0, y0, d0, s2⟩, _, h2⟩ := h
                simp only [Option.pure_def, Option.some.injEq, Prod.mk.injEq] at h2
                rw [ha] at h2
                exact Ast.noConfusion h2.1
              · rw [if_neg hc7] at h
                by_cases hc8 : (currentToken s0).type = .GITGRAPH
                · rw [if_pos hc8] at h
                  simp only [parseGitgraph] at h
                  rw [optBind_eq_some] at h
                  obtain ⟨s2, _, h2⟩ := h
                  simp only [Option.pure_def, Option.some.injEq, Prod.mk.injEq] at h2
                  rw [ha] at h2
                  exact Ast.noConfusion h2.1
                · rw [if_neg hc8] at h
                  by_cases hc9 : (currentToken s0).type = .MINDMAP
                  · rw [if_pos hc9] at h
                    simp only [parseMindmap] at h
                    rw [optBind_eq_some] at h
                    obtain ⟨s2, _, h2⟩ := h
                    simp only [Option.pure_def, Option.some.injEq, Prod.mk.injEq] at h2
                    rw [ha] at h2
                    exact Ast.noConfusion h2.1
                  · rw [if_neg hc9] at h
                    by_cases hc10 : (currentToken s0).type = .TIMELINE
                    · rw [if_pos hc10] at h
                      simp only [parseTimeline] at h
                      rw [optBind_eq_some] at h
                      obtain ⟨s2, _, h2⟩ := h
                      simp only [Option.pure_def, Option.some.injEq, Prod.mk.injEq] at h2
                      rw [ha] at h2
                      exact Ast.noConfusion h2.1
                    · rw [if_neg hc10] at h
                      by_cases hc11 : (currentToken s0).type = .GANTT
                      · rw [if_pos hc11] at h
                        simp only [parseGantt] at h
                        rw [optBind_eq_some] at h
                        obtain ⟨s2, _, h2⟩ := h
                        simp only [Option.pure_def, Option.some.injEq, Prod.mk.injEq] at h2
                        rw [ha] at h2
                        exact Ast.noConfusion h2.1
                      · rw [if_neg hc11] at h
                        by_cases hc12 : (currentToken s0).type = .ER_DIAGRAM
                        · rw [if_pos hc12] at h
                          simp only [parseERDiagram] at h
                          rw [optBind_eq_some] at h
                          obtain ⟨s2, _, h2⟩ := h
                          simp only [Option.pure_def, Option.some.injEq, Prod.mk.injEq] at h2
                          rw [ha] at h2
                          exact Ast.noConfusion h2.1
                        · rw [if_neg hc12] at h
                          by_cases hc13 : (currentToken s0).type = .BLOCK_BETA
                          · rw [if_pos hc13] at h
                            simp only [parseBlockDiagram] at h
                            rw [optBind_eq_some] at h
                            obtain ⟨⟨c0, b0, s2⟩, _, h2⟩ := h
                            simp only [Option.pure_def, Option.some.injEq, Prod.mk.injEq] at h2
                            rw [ha] at h2
                            exact Ast.noConfusion h2.1
                          · rw [if_neg hc13] at h
                            simp only [Option.pure_def, Option.some.injEq, Prod.mk.injEq] at h
                            exact Ast.noConfusion (h.1.trans ha)

/-- Claim C10: every message node in a sequence-diagram AST returned by
`validateMermaid` has `arrowType` solid or dotted — the `thick` value of the
`MessageNode` type is never produced (`->`, `->>` and `-->` all map to solid,
`-->>` maps to dotted). -/
theorem sequence_messages_never_thick (fuel : Nat) (inp tv : Option String)
    (r : ValidationResult) (l c : Nat) (ps : List ParticipantNode) (ms : List MessageNode)
    (h : validateMermaid fuel inp tv = some r)
    (ha : r.ast = some (Ast.sequence l c ps ms)) :
    ∀ m ∈ ms, m.arrowType = .solid ∨ m.arrowType = .dotted := by
  cases inp with
  | none =>
    simp only [validateMermaid, Option.some.injEq] at h
    subst h
    cases ha
  | some code =>
    simp only [validateMermaid] at h
    split at h
    · simp only [Option.some.injEq] at h
      subst h
      cases ha
    · rw [optBind_eq_some] at h
      obtain ⟨result, hp, hrest⟩ := h
      have hast : r.ast = result.ast := by
        split at hrest
        · split at hrest
          · simp only [Option.pure_def, Option.some.injEq] at hrest
            subst hrest
            rfl
          · simp only [Option.pure_def, Option.some.injEq] at hrest
            subst hrest
            rfl
        · simp only [Option.pure_def, Option.some.injEq] at hrest
          subst hrest
          rfl
      simp only [parse] at hp
      rw [optBind_eq_some] at hp
      obtain ⟨⟨ast0, sP⟩, hd, hpure⟩ := hp
      simp only [Option.pure_def, Option.some.injEq] at hpure
      subst hpure
      rw [hast] at ha
      simp only [Option.some.injEq] at ha
      exact parseDiagram_seq_msgs fuel _ ast0 sP hd l c ps ms ha

/-- Witness for C10 at a concrete sequence-diagram input. -/
theorem sequence_messages_never_thick_witness :
    validateMermaid 50 (some "sequenceDiagram") none =
      some ⟨true, "sequence", [], some (Ast.sequence 1 16 [] [])⟩ ∧
    ∀ m ∈ ([] : List MessageNode), m.arrowType = .solid ∨ m.arrowType = .dotted :=
  ⟨rfl, sequence_messages_never_thick 50 (some "sequenceDiagram") none
    ⟨true, "sequence", [], some (Ast.sequence 1 16 [] [])⟩ 1 16 [] [] rfl rfl⟩

/-- Claim C2 (code bug): on an xychart input whose `x-axis [` list is never
closed, `validateMermaid` returns for NO fuel bound at all — the x-axis
bracket-list loop tests only for the closing bracket, so at end of input
(where `currentToken` saturates to the EOF token and `advance` is a no-op) its
state is a fixed point and the loop never exits; the original code diverges
instead of terminating as the claim requires. -/
theorem validateMermaid_diverges_on_unclosed_xaxis :
    ∀ (fuel : Nat), validateMermaid fuel (some unclosedXAxisInput) none = none := by
  intro fuel
  show (parse fuel (tokenize unclosedXAxisInput)).bind _ = none
  rw [show tokenize unclosedXAxisInput = unclosedXAxisTokens from rfl, parse_unclosed]
  rfl

end Merval
